import Mathlib

/-
Verification development for the vocal-web intent-to-action planning pipeline.

The Python sources under src/agents are shallowly embedded below:
  * agents/shared/utils_urls.py    (map_site_to_url, rewrite_flight_dates_in_url)
  * agents/shared/utils_dates.py   (date_keywords)
  * agents/shared/utils_entities.py (extract_entities_from_transcript)
  * agents/shared/schemas.py       (ActionPlan, ClarificationRequest validators)
  * agents/interpreter_agent.py    (build_action_plan_from_transcript)
  * agents/shared/ax_matcher.py    (scoring and element matching)
  * agents/navigator_agent.py      (build_ax_execution_plan, build_execution_plan)

Machine floats carrying confidence scores are embedded as rationals; Python
dicts as insertion-ordered association lists; regular expressions as explicit
abstract trees interpreted by a small backtracking matcher whose priority
order (leftmost start, greedy descending / lazy ascending, alternation in
written order) mirrors the CPython re engine on the patterns involved.
-/

namespace VocalWeb

abbrev Chars := List Char

/-- ASCII lowercase of one character, as Python str.lower on ASCII input. -/
def lowerChar (c : Char) : Char :=
  if 'A' ≤ c && c ≤ 'Z' then Char.ofNat (c.toNat + 32) else c

def lowerChars (cs : Chars) : Chars := cs.map lowerChar

def lowerS (s : String) : String := String.mk (lowerChars s.data)

/-- Python regex whitespace class (ASCII part), enough for transcripts. -/
def isWs (c : Char) : Bool :=
  c == ' ' || c == '\t' || c == '\n' || c == '\r' || c == '\x0b' || c == '\x0c'

def isDigitC (c : Char) : Bool := '0' ≤ c && c ≤ '9'

def isAsciiAlpha (c : Char) : Bool :=
  ('a' ≤ c && c ≤ 'z') || ('A' ≤ c && c ≤ 'Z')

/-- Regex word character (ASCII part of the default unicode \w). -/
def isWordChar (c : Char) : Bool := isAsciiAlpha c || isDigitC c || c == '_'

def prefixB : Chars → Chars → Bool
  | [], _ => true
  | _ :: _, [] => false
  | a :: as, b :: bs => a == b && prefixB as bs

/-- Substring containment on char lists, as the Python `in` operator. -/
def subB (needle : Chars) : Chars → Bool
  | [] => needle.isEmpty
  | c :: t => prefixB needle (c :: t) || subB needle t

/-- Python `needle in hay` on strings. -/
def containsStr (hay needle : String) : Bool := subB needle.data hay.data

def stripWhile (p : Char → Bool) (cs : Chars) : Chars :=
  ((cs.dropWhile p).reverse.dropWhile p).reverse

/-- Python str.strip() (whitespace). -/
def stripWs (s : String) : String := String.mk (stripWhile isWs s.data)

/-- Python str.strip(chars) for an explicit character set. -/
def stripSet (set : Chars) (s : String) : String :=
  String.mk (stripWhile (fun c => set.contains c) s.data)

/-- Python str.rstrip(chars). -/
def rstripSet (set : Chars) (s : String) : String :=
  String.mk ((s.data.reverse.dropWhile (fun c => set.contains c)).reverse)

/-- Occurrence of word w with regex word boundaries on both sides
(re.search of backslash-b w backslash-b); prev is the char before the
current scan position. -/
def hasWordFrom (w : Chars) : Option Char → Chars → Bool
  | _, [] => false
  | prev, c :: t =>
    (prefixB w (c :: t)
      && !(match prev with | some p => isWordChar p | none => false)
      && !(match (c :: t).drop w.length with
           | nx :: _ => isWordChar nx
           | [] => false))
    || hasWordFrom w (some c) t

def containsWord (hay word : String) : Bool := hasWordFrom word.data none hay.data

/-- JSON-like values: the payloads flowing through entity maps and parsed
LLM responses (Python dict / list / str / number / bool / None). -/
inductive JVal where
  | str (s : String)
  | num (q : ℚ)
  | bool (b : Bool)
  | null
  | arr (xs : List JVal)
  | obj (fs : List (String × JVal))

/-- Python v == some string literal, for a JSON-like value (schema_version
dispatch in the sources compares a dict entry against a string). -/
def jIsStr (v : JVal) (s : String) : Bool :=
  match v with
  | .str t => t == s
  | _ => false

/-- Python truthiness of a JSON-like value. -/
def jTruthy : JVal → Bool
  | .str s => !s.isEmpty
  | .num q => q != 0
  | .bool b => b
  | .null => false
  | .arr xs => !xs.isEmpty
  | .obj fs => !fs.isEmpty

/-- Insertion-ordered string-keyed dictionary, as Python dict. -/
abbrev Dict (V : Type) := List (String × V)

def dictGet {V} (d : Dict V) (k : String) : Option V :=
  (d.find? (fun p => p.1 == k)).map (·.2)

def dictHasKey {V} (d : Dict V) (k : String) : Bool :=
  (d.find? (fun p => p.1 == k)).isSome

/-- Python d[k] = v: update in place if the key exists, else append. -/
def dictInsert {V} (d : Dict V) (k : String) (v : V) : Dict V :=
  match d with
  | [] => [(k, v)]
  | (k', v') :: t => if k' == k then (k, v) :: t else (k', v') :: dictInsert t k v

abbrev Entities := Dict JVal

/-- Truthiness of dict.get(k), as Python `if entities.get(k):`. -/
def entTruthy (e : Entities) (k : String) : Bool :=
  match dictGet e k with
  | some v => jTruthy v
  | none => false

/-- Abstract trees for the concrete regular expressions appearing in the
sources; interpreted by rxRun below. cls1 is a one-or-more character
class (greedy or lazy), opt a greedy optional group, bnd a word
boundary, eos the end-of-input anchor. -/
inductive Rx where
  | lit (s : String)
  | cls1 (p : Char → Bool) (lazyQ : Bool)
  | opt (r : Rx)
  | alt (rs : List Rx)
  | seq (rs : List Rx)
  | grp (n : Nat) (r : Rx)
  | bnd
  | eos

/-- One backtracking outcome: captured groups, char before the remaining
input, remaining input. -/
structure RxOut where
  caps : List (Nat × Chars)
  prev : Option Char
  rest : Chars

def litChars (ci : Bool) (s : String) : Chars :=
  if ci then lowerChars s.data else s.data

def litMatch (ci : Bool) (w : Chars) (s : Chars) : Option (Option Char × Chars) :=
  let target := s.take w.length
  let cand := if ci then lowerChars target else target
  if cand == w && w.length ≤ s.length then
    some (match target.getLast? with
          | some c => some c
          | none => none, s.drop w.length)
  else none

def isWordOpt : Option Char → Bool
  | some c => isWordChar c
  | none => false

/-- All ways to consume k chars of the maximal class run, k = 1..run
length, greedy = longest first, lazy = shortest first. -/
def clsCandidates (p : Char → Bool) (lazyQ : Bool) (s : Chars) : List Nat :=
  let run := (s.takeWhile p).length
  let ks := (List.range run).map (· + 1)
  if lazyQ then ks else ks.reverse

/-- Backtracking matcher. Outcomes are produced in the priority order the
CPython engine explores them, so the head of the list is the match
re.search would commit to at this start position. -/
def rxRun (ci : Bool) : Nat → Rx → Option Char → Chars → List RxOut
  | 0, _, _, _ => []
  | _ + 1, .lit w, prev, s =>
    match litMatch ci (litChars ci w) s with
    | some (lastc, rest) =>
      [⟨[], (match lastc with | some c => some c | none => prev), rest⟩]
    | none => []
  | _ + 1, .cls1 p lz, prev, s =>
    (clsCandidates p lz s).filterMap (fun k =>
      let consumed := s.take k
      match consumed.getLast? with
      | some c => some ⟨[], some c, s.drop k⟩
      | none => some ⟨[], prev, s.drop k⟩)
  | fuel + 1, .opt r, prev, s =>
    rxRun ci fuel r prev s ++ [⟨[], prev, s⟩]
  | fuel + 1, .alt rs, prev, s =>
    rs.foldr (fun r acc => rxRun ci fuel r prev s ++ acc) []
  | _ + 1, .seq [], prev, s => [⟨[], prev, s⟩]
  | fuel + 1, .seq (r :: rs), prev, s =>
    (rxRun ci fuel r prev s).foldr
      (fun o acc =>
        ((rxRun ci fuel (.seq rs) o.prev o.rest).map
          (fun o2 => ⟨o.caps ++ o2.caps, o2.prev, o2.rest⟩)) ++ acc)
      []
  | fuel + 1, .grp n r, prev, s =>
    (rxRun ci fuel r prev s).map
      (fun o => ⟨(n, s.take (s.length - o.rest.length)) :: o.caps, o.prev, o.rest⟩)
  | _ + 1, .bnd, prev, s =>
    let nextWord := match s with | c :: _ => isWordChar c | [] => false
    if isWordOpt prev ≠ nextWord then [⟨[], prev, s⟩] else []
  | _ + 1, .eos, prev, s =>
    if s.isEmpty then [⟨[], prev, s⟩] else []

/-- A committed search result: start index, whole match, groups. -/
structure RxFound where
  start : Nat
  whole : Chars
  caps : List (Nat × Chars)

def rxFuel : Nat := 4000

/-- re.search: try each start position left to right, commit to the first
position admitting a match and to the engine-preferred outcome there. -/
def rxSearchAux (ci : Bool) (r : Rx) : Nat → Option Char → Chars → Option RxFound
  | i, prev, s =>
    match rxRun ci rxFuel r prev s with
    | o :: _ => some ⟨i, s.take (s.length - o.rest.length), o.caps⟩
    | [] =>
      match s with
      | [] => none
      | c :: t => rxSearchAux ci r (i + 1) (some c) t

def rxSearch (ci : Bool) (r : Rx) (s : String) : Option RxFound :=
  rxSearchAux ci r 0 none s.data

def rxGroup (f : RxFound) (n : Nat) : Option Chars :=
  (f.caps.find? (fun p => p.1 == n)).map (·.2)

/-- re.match at position 0 (used by anchored re.sub patterns). -/
def rxMatchStart (ci : Bool) (r : Rx) (s : Chars) : Option Chars :=
  match rxRun ci rxFuel r none s with
  | o :: _ => some o.rest
  | [] => none

/-- Python str.startswith. -/
def strStartsWith (s pre : String) : Bool := prefixB pre.data s.data

def digitChar (n : Nat) : Char := Char.ofNat (48 + n)

def digitVal (c : Char) : Nat := c.toNat - 48

def natReprAux : Nat → Nat → Chars
  | 0, _ => []
  | fuel + 1, n => if n < 10 then [digitChar n] else natReprAux fuel (n / 10) ++ [digitChar (n % 10)]

/-- Python str(n) for a nonnegative integer. -/
def natRepr (n : Nat) : String := String.mk (natReprAux (n + 1) n)

/-- Python f-string 02d padding. -/
def pad2 (n : Nat) : String := if n < 10 then "0" ++ natRepr n else natRepr n

/-- Python str(i) for an int (positions can be -1 for "last"). -/
def intRepr (i : Int) : String :=
  if i < 0 then "-" ++ natRepr i.natAbs else natRepr i.natAbs

def isLeapYear (y : Nat) : Bool := (y % 4 == 0 && y % 100 != 0) || y % 400 == 0

def daysInMonth (y m : Nat) : Nat :=
  if m == 2 then (if isLeapYear y then 29 else 28)
  else if m == 4 || m == 6 || m == 9 || m == 11 then 30
  else 31

structure Ymd where
  year : Nat
  month : Nat
  day : Nat
  deriving DecidableEq

/-- Strict parsing of a canonical ISO-8601 calendar date (YYYY-MM-DD with a
real day of month). The sources parse date strings with dateutil, which
accepts more formats; the claims quantify over valid ISO-8601 date
strings, which this covers exactly, and on them dateutil agrees. -/
def parseIsoDate (s : String) : Option Ymd :=
  match s.data with
  | [y1, y2, y3, y4, h1, m1, m2, h2, d1, d2] =>
    if isDigitC y1 && isDigitC y2 && isDigitC y3 && isDigitC y4
        && h1 == '-' && isDigitC m1 && isDigitC m2 && h2 == '-'
        && isDigitC d1 && isDigitC d2 then
      let y := 1000 * digitVal y1 + 100 * digitVal y2 + 10 * digitVal y3 + digitVal y4
      let m := 10 * digitVal m1 + digitVal m2
      let d := 10 * digitVal d1 + digitVal d2
      if 1 ≤ y && 1 ≤ m && m ≤ 12 && 1 ≤ d && d ≤ daysInMonth y m then
        some ⟨y, m, d⟩
      else none
    else none
  | _ => none

/-- datetime.date.isoformat: zero-padded YYYY-MM-DD (years here are at most
four digits, as guaranteed by parseIsoDate). -/
def isoFormat (y m d : Nat) : String :=
  String.mk [digitChar (y / 1000 % 10), digitChar (y / 100 % 10),
             digitChar (y / 10 % 10), digitChar (y % 10), '-',
             digitChar (m / 10 % 10), digitChar (m % 10), '-',
             digitChar (d / 10 % 10), digitChar (d % 10)]

/-- calendar.month_name lookup (index 0 is empty in Python). -/
def monthName : Nat → String
  | 1 => "January" | 2 => "February" | 3 => "March" | 4 => "April"
  | 5 => "May" | 6 => "June" | 7 => "July" | 8 => "August"
  | 9 => "September" | 10 => "October" | 11 => "November" | 12 => "December"
  | _ => ""

/-- calendar.month_abbr lookup. -/
def monthAbbr : Nat → String
  | 1 => "Jan" | 2 => "Feb" | 3 => "Mar" | 4 => "Apr" | 5 => "May" | 6 => "Jun"
  | 7 => "Jul" | 8 => "Aug" | 9 => "Sep" | 10 => "Oct" | 11 => "Nov" | 12 => "Dec"
  | _ => ""

/-- calendar.day_name, Monday first. -/
def weekdayNames : List String :=
  ["Monday", "Tuesday", "Wednesday", "Thursday", "Friday", "Saturday", "Sunday"]

/-- The suffix-list indexing expression appearing in the sources, written
out: Python index -1 wraps around to the last element; indexes past the
end would raise, which cannot happen for calendar day numbers. -/
def stndrdIndex (i : Int) : String :=
  if i == 0 then "st"
  else if i == 1 then "nd"
  else if i == 2 then "rd"
  else if i == -1 then "rd"
  else ""

namespace UtilsDates

/-- Ordinal suffix as computed in utils_dates.date_keywords. -/
def ordinalSuffix (day : Nat) : String :=
  if (4 ≤ day && day ≤ 20) || (24 ≤ day && day ≤ 30) then "th"
  else stndrdIndex ((day : Int) % 10 - 1)

/-- date_keywords from agents/shared/utils_dates.py: the variant list in
source order, then the lowercased set (membership and freedom from
duplicates model Python list(set(...))). -/
def date_keywords (date_iso : String) : List String :=
  match parseIsoDate date_iso with
  | none => []
  | some dt =>
    let day := dt.day
    let month := dt.month
    let year := dt.year
    let month_name := monthName month
    let month_abbr := monthAbbr month
    let short_year := year % 100
    let suffix := ordinalSuffix day
    let variants : List String :=
      [ natRepr day ++ " " ++ month_name ++ " " ++ natRepr year
      , natRepr day ++ " " ++ month_abbr ++ " " ++ natRepr year
      , month_name ++ " " ++ natRepr day ++ " " ++ natRepr year
      , month_abbr ++ " " ++ natRepr day ++ " " ++ natRepr year
      , month_name ++ " " ++ natRepr day
      , month_abbr ++ " " ++ natRepr day
      , natRepr day ++ " " ++ month_name
      , natRepr day ++ " " ++ month_abbr
      , natRepr day ++ "/" ++ natRepr month ++ "/" ++ natRepr year
      , natRepr day ++ "-" ++ natRepr month ++ "-" ++ natRepr year
      , natRepr day ++ "." ++ natRepr month ++ "." ++ natRepr year
      , natRepr month ++ "/" ++ natRepr day ++ "/" ++ natRepr year
      , natRepr month ++ "/" ++ natRepr day ++ "/" ++ natRepr short_year
      , natRepr day ++ "/" ++ natRepr month ++ "/" ++ natRepr short_year
      , natRepr month ++ "-" ++ natRepr day ++ "-" ++ natRepr short_year
      , natRepr day ++ "-" ++ natRepr month ++ "-" ++ natRepr short_year
      , natRepr month ++ "." ++ natRepr day ++ "." ++ natRepr short_year
      , natRepr day ++ "." ++ natRepr month ++ "." ++ natRepr short_year
      , pad2 month ++ "/" ++ pad2 day ++ "/" ++ pad2 short_year
      , pad2 day ++ "/" ++ pad2 month ++ "/" ++ pad2 short_year
      , isoFormat year month day
      , natRepr year ++ "-" ++ pad2 month ++ "-" ++ pad2 day
      , natRepr day
      , pad2 day
      , natRepr day ++ suffix
      , natRepr day ++ suffix ++ " " ++ month_name ++ " " ++ natRepr year ]
    (variants.map lowerS).dedup

end UtilsDates

/-- The static site-to-URL table of utils_urls.map_site_to_url. -/
def siteUrlMapping : List (String × String) :=
  [ ("youtube", "https://www.youtube.com")
  , ("www.youtube.com", "https://www.youtube.com")
  , ("booking.com", "https://www.booking.com")
  , ("bookings.com", "https://www.booking.com")
  , ("www.booking.com", "https://www.booking.com")
  , ("skyscanner", "https://www.skyscanner.net")
  , ("www.skyscanner.com", "https://www.skyscanner.net")
  , ("www.skyscanner.net", "https://www.skyscanner.net")
  , ("kayak", "https://www.kayak.com")
  , ("www.kayak.com", "https://www.kayak.com")
  , ("expedia", "https://www.expedia.com")
  , ("www.expedia.com", "https://www.expedia.com")
  , ("google", "https://www.google.com")
  , ("www.google.com", "https://www.google.com")
  , ("hotels.com", "https://www.hotels.com")
  , ("www.hotels.com", "https://www.hotels.com")
  , ("new york times", "https://www.nytimes.com")
  , ("nytimes", "https://www.nytimes.com")
  , ("nytimes.com", "https://www.nytimes.com")
  , ("www.nytimes.com", "https://www.nytimes.com")
  , ("the guardian", "https://www.theguardian.com")
  , ("guardian", "https://www.theguardian.com")
  , ("theguardian.com", "https://www.theguardian.com")
  , ("www.theguardian.com", "https://www.theguardian.com")
  , ("washington post", "https://www.washingtonpost.com")
  , ("washingtonpost", "https://www.washingtonpost.com")
  , ("washingtonpost.com", "https://www.washingtonpost.com")
  , ("www.washingtonpost.com", "https://www.washingtonpost.com")
  , ("amazon", "https://www.amazon.com")
  , ("www.amazon.com", "https://www.amazon.com")
  , ("amazon.com", "https://www.amazon.com") ]

/-- map_site_to_url from agents/shared/utils_urls.py. -/
def map_site_to_url (site : String) : Option String :=
  let normalized := stripWs (lowerS site)
  match (siteUrlMapping.find? (fun p => p.1 == normalized)).map (·.2) with
  | some u => some u
  | none =>
    if strStartsWith normalized "http://" || strStartsWith normalized "https://" then
      some normalized
    else if containsStr normalized "." then
      some ("https://" ++ normalized)
    else none

/-- urlsplit components of a URL. The embedding of the URL rewriter works
on this representation directly: urlsplit and urlunsplit are mutually
inverse on the well-formed URLs the rewriter receives. -/
structure UrlParts where
  scheme : String
  netloc : String
  path : String
  query : String
  fragment : String
  deriving DecidableEq

def splitOnCharAux (sep : Char) : Chars → List Chars
  | [] => [[]]
  | c :: cs =>
    match splitOnCharAux sep cs with
    | [] => [[]]
    | g :: gs => if c == sep then [] :: g :: gs else (c :: g) :: gs

/-- Python path.split on a slash. -/
def splitSlash (s : String) : List String := (splitOnCharAux '/' s.data).map String.mk

/-- Python slash.join(parts). -/
def joinSlash : List String → String
  | [] => ""
  | [p] => p
  | p :: ps => p ++ "/" ++ joinSlash ps

/-- re.fullmatch of six digits against a path segment. -/
def isSixDigits (s : String) : Bool := s.length == 6 && s.data.all isDigitC

/-- Indexes of the elements satisfying p, ascending. -/
def idxsWhere (p : α → Bool) : List α → List Nat
  | [] => []
  | a :: t =>
    let rest := (idxsWhere p t).map (· + 1)
    if p a then 0 :: rest else rest

/-- Python list.insert(i, a) for i at most the length. -/
def pyInsertAt (l : List α) (i : Nat) (a : α) : List α := l.take i ++ a :: l.drop i

/-- Six consecutive digits start here. -/
def sixAt (cs : Chars) : Bool := (cs.take 6).length == 6 && (cs.take 6).all isDigitC

def hasSixRun : Chars → Bool
  | [] => false
  | c :: rest => sixAt (c :: rest) || hasSixRun rest

/-- re.finditer over six-digit runs zipped with the replacement list: each
non-overlapping six-digit run, left to right, is replaced by the next
replacement until replacements run out. -/
def replaceSixRuns : Chars → List Chars → Chars
  | cs, [] => cs
  | [], _ :: _ => []
  | c1 :: c2 :: c3 :: c4 :: c5 :: c6 :: tail, r :: rs =>
    if isDigitC c1 && isDigitC c2 && isDigitC c3 && isDigitC c4
        && isDigitC c5 && isDigitC c6 then
      r ++ replaceSixRuns tail rs
    else c1 :: replaceSixRuns (c2 :: c3 :: c4 :: c5 :: c6 :: tail) (r :: rs)
  | cs, _ :: _ => cs

/-- Truthiness of the optional inbound date argument (None and the empty
string are both falsy in Python). -/
def inbTruthy : Option String → Bool
  | some s => !s.data.isEmpty
  | none => false

/-- rewrite_flight_dates_in_url from agents/shared/utils_urls.py, embedded
on urlsplit components. The source first guards on a falsy page_url or
outbound; a URL given as components is nonempty, so only the outbound
guard remains. -/
def rewrite_flight_dates_in_url (u : UrlParts) (outbound : String)
    (inbound : Option String) : Option UrlParts :=
  if outbound.data.isEmpty then none
  else
    let parts := splitSlash u.path
    let dateIndexes := idxsWhere isSixDigits parts
    match dateIndexes with
    | [] =>
      if hasSixRun u.path.data then
        let replacements :=
          outbound.data :: (if inbTruthy inbound then [(inbound.getD "").data] else [])
        some { u with path := String.mk (replaceSixRuns u.path.data replacements) }
      else none
    | i0 :: restIdx =>
      let updated := parts.set i0 outbound
      let updated2 :=
        match restIdx with
        | i1 :: _ => if inbTruthy inbound then updated.set i1 (inbound.getD "") else updated
        | [] => if inbTruthy inbound then pyInsertAt updated (i0 + 1) (inbound.getD "") else updated
      some { u with path := joinSlash updated2 }

/- Character classes of the regular expressions in utils_entities.py and
interpreter_agent.py. -/

def notWs (c : Char) : Bool := !isWs c

/-- Regex dot with DOTALL off: anything but a newline. -/
def anyNoNl (c : Char) : Bool := c != '\n'

/-- Class of letters, digits, space and comma. -/
def alnumSpComma (c : Char) : Bool := isAsciiAlpha c || isDigitC c || c == ' ' || c == ','

/-- Class of letters, whitespace and hyphen. -/
def alphaSpHyphen (c : Char) : Bool := isAsciiAlpha c || isWs c || c == '-'

/-- Class of letters, digits, space, comma and slash. -/
def alnumSpCommaSlash (c : Char) : Bool :=
  isAsciiAlpha c || isDigitC c || c == ' ' || c == ',' || c == '/'

/-- Negated class: anything but a dot or comma. -/
def notDotComma (c : Char) : Bool := c != '.' && c != ','

/-- Class of letters, digits, dot and hyphen. -/
def alnumDotHyphen (c : Char) : Bool := isAsciiAlpha c || isDigitC c || c == '.' || c == '-'

/-- Class of lowercase letters, digits, dot and hyphen (domain regex). -/
def domainChar (c : Char) : Bool := ('a' ≤ c && c ≤ 'z') || isDigitC c || c == '.' || c == '-'

/-- https?://[^ \s]+ (raw URL detection, case sensitive). -/
def urlRx : Rx := .seq [.lit "http", .opt (.lit "s"), .lit "://", .cls1 notWs false]

/-- from\s+([A-Za-z0-9 ,]+?)\s+to\s+([A-Za-z0-9 ,]+) with IGNORECASE. -/
def rangeRx : Rx :=
  .seq [.lit "from", .cls1 isWs false, .grp 1 (.cls1 alnumSpComma true),
        .cls1 isWs false, .lit "to", .cls1 isWs false, .grp 2 (.cls1 alnumSpComma false)]

/-- The (?:\s+on\b|,|$) tail shared by the route, to and from patterns. -/
def onTail : Rx := .alt [.seq [.cls1 isWs false, .lit "on", .bnd], .lit ",", .eos]

/-- from\s+(.+?)\s+to\s+(.+?)(?:\s+on\b|,|$) with IGNORECASE. -/
def routeRx : Rx :=
  .seq [.lit "from", .cls1 isWs false, .grp 1 (.cls1 anyNoNl true),
        .cls1 isWs false, .lit "to", .cls1 isWs false, .grp 2 (.cls1 anyNoNl true), onTail]

/-- to\s+([A-Za-z\s\-]+)(?:\s+on\b|,|$) with IGNORECASE. -/
def toRx : Rx := .seq [.lit "to", .cls1 isWs false, .grp 1 (.cls1 alphaSpHyphen false), onTail]

/-- from\s+([A-Za-z\s\-]+)(?:\s+on\b|,|$) with IGNORECASE. -/
def fromRx : Rx := .seq [.lit "from", .cls1 isWs false, .grp 1 (.cls1 alphaSpHyphen false), onTail]

/-- \bon\s+((?:the\s+)?[^\.,]+) with IGNORECASE. -/
def onDateRx : Rx :=
  .seq [.bnd, .lit "on", .cls1 isWs false,
        .grp 1 (.seq [.opt (.seq [.lit "the", .cls1 isWs false]), .cls1 notDotComma false])]

/-- depart(?:ing)?\s+on\s+([A-Za-z0-9 ,/]+) with IGNORECASE. -/
def departRx : Rx :=
  .seq [.lit "depart", .opt (.lit "ing"), .cls1 isWs false, .lit "on", .cls1 isWs false,
        .grp 1 (.cls1 alnumSpCommaSlash false)]

/-- return(?:ing)?\s+on\s+([A-Za-z0-9 ,/]+) with IGNORECASE. -/
def returnOnRx : Rx :=
  .seq [.lit "return", .opt (.lit "ing"), .cls1 isWs false, .lit "on", .cls1 isWs false,
        .grp 1 (.cls1 alnumSpCommaSlash false)]

/-- (?:search for|find|look up|look for|play|watch)\s+(.+) with IGNORECASE. -/
def queryRx : Rx :=
  .seq [.alt [.lit "search for", .lit "find", .lit "look up", .lit "look for",
              .lit "play", .lit "watch"],
        .cls1 isWs false, .grp 1 (.cls1 anyNoNl false)]

/-- \b(on|in)\s+([A-Za-z0-9\.\-]+)$ with IGNORECASE (trailing site hint). -/
def siteHintRx : Rx :=
  .seq [.bnd, .grp 1 (.alt [.lit "on", .lit "in"]), .cls1 isWs false,
        .grp 2 (.cls1 alnumDotHyphen false), .eos]

/-- \b([a-z0-9.-]+\.(?:com|net|org|io|ai|co\.uk|app|travel|tv))\b, applied
to the lowercased transcript. -/
def domainRx : Rx :=
  .seq [.bnd,
        .grp 1 (.seq [.cls1 domainChar false, .lit ".",
                      .alt [.lit "com", .lit "net", .lit "org", .lit "io", .lit "ai",
                            .lit "co.uk", .lit "app", .lit "travel", .lit "tv"]]),
        .bnd]

/-- The ordinal word table of utils_entities.py in insertion order. -/
def ordinalsTable : List (String × Int) :=
  [ ("first", 1), ("1st", 1), ("second", 2), ("2nd", 2), ("third", 3), ("3rd", 3)
  , ("fourth", 4), ("4th", 4), ("fifth", 5), ("5th", 5), ("sixth", 6), ("6th", 6)
  , ("seventh", 7), ("7th", 7), ("eighth", 8), ("8th", 8), ("ninth", 9), ("9th", 9)
  , ("tenth", 10), ("10th", 10), ("last", -1), ("latest", 1) ]

/-- The known-site keyword list of utils_entities.py in source order. -/
def knownSites : List String :=
  [ "youtube", "dailymotion", "vimeo", "netflix", "prime video", "primevideo"
  , "hulu", "disneyplus", "disney+", "twitch", "booking.com", "bookings.com"
  , "skyscanner", "kayak", "expedia", "google", "hotels.com", "new york times"
  , "nytimes", "nytimes.com", "the guardian", "guardian", "washington post"
  , "washingtonpost", "amazon", "amazon.com" ]

/-- extract_entities_from_transcript from agents/shared/utils_entities.py.

The parameter nd embeds normalize_date: the source delegates fuzzy date
parsing to the external dateutil library with the current UTC date as
default, so it is not a pure function of its argument and is modelled as
an oracle; a phrase with no date tokens makes dateutil raise, which the
source maps to None. -/
def extract_entities_from_transcript (nd : String → Option String)
    (transcript : String) : Entities :=
  let entities : Entities := []
  let lower := lowerS transcript
  -- Raw URL detection
  let entities :=
    match rxSearch false urlRx transcript with
    | some f => dictInsert entities "url" (.str (rstripSet ['.', ','] (String.mk f.whole)))
    | none => entities
  -- Basic modifiers
  let entities :=
    if containsStr lower "latest" || containsStr lower "newest" || containsStr lower "recent"
    then dictInsert entities "latest" (.bool true) else entities
  let entities :=
    if containsStr lower "scroll down" then dictInsert entities "scroll_direction" (.str "down")
    else if containsStr lower "scroll up" then dictInsert entities "scroll_direction" (.str "up")
    else entities
  -- Site/domain hints
  let entities :=
    match knownSites.find? (fun site => containsStr lower site) with
    | some site => dictInsert entities "site" (.str site)
    | none => entities
  let entities :=
    match rxSearch false domainRx lower with
    | some f =>
      if dictHasKey entities "site" then entities
      else
        match rxGroup f 1 with
        | some site =>
          let e := dictInsert entities "site" (.str (String.mk site))
          (match map_site_to_url (String.mk site) with
           | some url => dictInsert e "url" (.str url)
           | none => e)
        | none => entities
    | none => entities
  -- Ordinal/position
  let entities :=
    match ordinalsTable.find? (fun p => containsWord lower p.1) with
    | some p => dictInsert entities "position" (.num (p.2 : ℚ))
    | none => entities
  -- Date range
  let entities :=
    match rxSearch true rangeRx transcript with
    | some f =>
      let e1 :=
        match (rxGroup f 1).bind (fun g => nd (String.mk g)) with
        | some start => dictInsert entities "date_start" (.str start)
        | none => entities
      (match (rxGroup f 2).bind (fun g => nd (String.mk g)) with
       | some stop => dictInsert e1 "date_end" (.str stop)
       | none => e1)
    | none => entities
  -- Single date after the word on
  let entities :=
    match rxSearch true onDateRx transcript with
    | some f =>
      (match (rxGroup f 1).bind (fun g => nd (String.mk g)) with
       | some d => dictInsert entities "date" (.str d)
       | none => entities)
    | none => entities
  let entities :=
    match rxSearch true departRx transcript with
    | some f =>
      (match (rxGroup f 1).bind (fun g => nd (String.mk g)) with
       | some d => dictInsert entities "date_start" (.str d)
       | none => entities)
    | none => entities
  let entities :=
    match rxSearch true returnOnRx transcript with
    | some f =>
      (match (rxGroup f 1).bind (fun g => nd (String.mk g)) with
       | some d => dictInsert entities "date_end" (.str d)
       | none => entities)
    | none => entities
  -- Route / destination
  let entities :=
    match rxSearch true routeRx transcript with
    | some f =>
      let e1 :=
        match rxGroup f 1 with
        | some g => dictInsert entities "origin" (.str (stripSet [' ', ',', '.'] (String.mk g)))
        | none => entities
      (match rxGroup f 2 with
       | some g => dictInsert e1 "destination" (.str (stripSet [' ', ',', '.'] (String.mk g)))
       | none => e1)
    | none =>
      let e1 :=
        match rxSearch true toRx transcript with
        | some f =>
          (match rxGroup f 1 with
           | some g => dictInsert entities "destination" (.str (stripSet [' ', ',', '.'] (String.mk g)))
           | none => entities)
        | none => entities
      (match rxSearch true fromRx transcript with
       | some f =>
         (match rxGroup f 1 with
          | some g => dictInsert e1 "origin" (.str (stripSet [' ', ',', '.'] (String.mk g)))
          | none => e1)
       | none => e1)
  -- Search query extraction
  let entities :=
    match rxSearch true queryRx transcript with
    | some f =>
      (match rxGroup f 1 with
       | some q =>
         let query_text := String.mk q
         let query_text :=
           match rxSearch true siteHintRx query_text with
           | some hint => stripWs (String.mk (q.take hint.start))
           | none => query_text
         dictInsert entities "query" (.str (stripSet [' ', '.'] query_text))
       | none => entities)
    | none => entities
  entities

/-- Modelled from the spec: agents.shared.utils_ids.make_uuid is imported
by the interpreter and navigator but utils_ids.py is not among the
sources; the spec only requires a fresh identifier string per plan and no
claim depends on identifier values, so it is modelled as a fixed
placeholder identifier. -/
def make_uuid : String := "00000000-0000-4000-8000-000000000000"

/-- ClarificationOption from agents/shared/schemas.py (candidate ids
default to the empty list through the pre validator). -/
structure ClarificationOption where
  label : String
  candidate_element_ids : List String := []
  deriving DecidableEq

/-- ClarificationRequest from agents/shared/schemas.py. -/
structure ClarificationRequest where
  schema_version : String := "clarification_v1"
  id : String
  trace_id : Option String := none
  question : String
  options : List ClarificationOption := []
  reason : Option String := none
  deriving DecidableEq

/-- ActionPlan from agents/shared/schemas.py. The pre validator
_default_entities makes entities an empty map at construction, but plain
attribute assignment bypasses validators in pydantic v1, so the field can
later hold none; it is therefore an Option here, with constructions
always producing some map. target and value hold JSON-like values
because the interpreter assigns entity values to them directly. -/
structure ActionPlan where
  schema_version : String := "actionplan_v1"
  id : String
  trace_id : Option String := none
  action : String
  target : Option JVal := none
  value : Option JVal := none
  entities : Option Entities := none
  confidence : ℚ := 0
  required_followup : List String := []

def jIsNull : JVal → Bool
  | .null => true
  | _ => false

/-- Projection of a stored string value (the call sites below only store
strings at these keys). -/
def jStr : JVal → String
  | .str s => s
  | _ => ""

/-- Python str() of a stored scalar (used for the position value; only
integers occur there). -/
def pyStr : JVal → String
  | .str s => s
  | .num q => if q.den == 1 then intRepr q.num else ""
  | .bool b => if b then "True" else "False"
  | .null => "None"
  | _ => ""

def optJTruthy : Option JVal → Bool
  | some v => jTruthy v
  | none => false

/-- pydantic v1 coercion of a value into a required str field: strings
pass, numbers and bools coerce to their repr, everything else (and a
missing or None value, handled by the callers) is a validation error. -/
def coerceStr : JVal → Except String String
  | .str s => .ok s
  | .num q => .ok (if q.den == 1 then intRepr q.num else "")
  | .bool b => .ok (if b then "True" else "False")
  | _ => .error "str type expected"

/-- Optional[str] field: missing and None become none. -/
def coerceOptStr : Option JVal → Except String (Option String)
  | none => .ok none
  | some .null => .ok none
  | some v => (coerceStr v).map some

/-- Required str field with its presence checks. -/
def reqStrField (o : Dict JVal) (k : String) : Except String String :=
  match dictGet o k with
  | none => .error (k ++ ": field required")
  | some .null => .error (k ++ ": none is not an allowed value")
  | some v => coerceStr v

/-- The _default_entities pre validator: dict(value or empty dict). A
truthy value of a non-mapping shape makes dict() raise, surfacing as a
validation error. -/
def validateEntities : Option JVal → Except String Entities
  | none => .ok []
  | some v =>
    if !jTruthy v then .ok []
    else match v with
      | .obj fs => .ok fs
      | _ => .error "entities: value is not a valid dict"

/-- A list-of-str field behind a list(value or empty) pre validator. -/
def validateStrList : Option JVal → Except String (List String)
  | none => .ok []
  | some v =>
    if !jTruthy v then .ok []
    else match v with
      | .arr xs => xs.mapM coerceStr
      | .str s => .ok (s.data.map (fun c => String.mk [c]))
      | _ => .error "value is not a valid list"

/-- The confidence float field (default 0.0). Numeric strings would also
coerce in pydantic; no verified scenario exercises that. -/
def coerceConfidence : Option JVal → Except String ℚ
  | none => .ok 0
  | some (.num q) => .ok q
  | some (.bool b) => .ok (if b then 1 else 0)
  | some _ => .error "confidence: value is not a valid float"

/-- ActionPlan(**remote): pydantic v1 construction from a parsed LLM
object, extra keys ignored. -/
def validateActionPlan (o : Dict JVal) : Except String ActionPlan := do
  let sv ← match dictGet o "schema_version" with
    | none => .ok "actionplan_v1"
    | some .null => .error "schema_version: none is not an allowed value"
    | some v => coerceStr v
  let pid ← reqStrField o "id"
  let tid ← coerceOptStr (dictGet o "trace_id")
  let action ← reqStrField o "action"
  let target ← coerceOptStr (dictGet o "target")
  let value ← coerceOptStr (dictGet o "value")
  let ents ← validateEntities (dictGet o "entities")
  let conf ← coerceConfidence (dictGet o "confidence")
  let followup ← validateStrList (dictGet o "required_followup")
  pure { schema_version := sv, id := pid, trace_id := tid, action := action,
         target := target.map JVal.str, value := value.map JVal.str,
         entities := some ents, confidence := conf, required_followup := followup }

def validateClarificationOption (v : JVal) : Except String ClarificationOption :=
  match v with
  | .obj fs => do
    let label ← reqStrField fs "label"
    let ids ← validateStrList (dictGet fs "candidate_element_ids")
    pure { label := label, candidate_element_ids := ids }
  | _ => .error "option: value is not a valid dict"

/-- The options field behind the list(value or empty) pre validator; each
item is validated as a ClarificationOption. -/
def validateOptions : Option JVal → Except String (List ClarificationOption)
  | none => .ok []
  | some v =>
    if !jTruthy v then .ok []
    else match v with
      | .arr xs => xs.mapM validateClarificationOption
      | _ => .error "options: value is not a valid list"

/-- ClarificationRequest(**remote). -/
def validateClarificationRequest (o : Dict JVal) : Except String ClarificationRequest := do
  let sv ← match dictGet o "schema_version" with
    | none => .ok "clarification_v1"
    | some .null => .error "schema_version: none is not an allowed value"
    | some v => coerceStr v
  let cid ← reqStrField o "id"
  let tid ← coerceOptStr (dictGet o "trace_id")
  let question ← reqStrField o "question"
  let options ← validateOptions (dictGet o "options")
  let reason ← coerceOptStr (dictGet o "reason")
  pure { schema_version := sv, id := cid, trace_id := tid, question := question,
         options := options, reason := reason }

/-- Result type of the interpreter: an ActionPlan or a ClarificationRequest. -/
inductive InterpResult where
  | plan (p : ActionPlan)
  | clarify (c : ClarificationRequest)

/-- One clarification_history entry (question and answer). -/
structure ClarHistEntry where
  question : Option String := none
  answer : Option String := none

/-- The recognized metadata keys of the inbound boundary. -/
structure Metadata where
  page_url : Option String := none
  page_host : Option String := none
  clarification_response : Option String := none
  clarification_history : List ClarHistEntry := []

/-- TranscriptMessage from agents/shared/schemas.py. -/
structure TranscriptMessage where
  id : String
  trace_id : Option String := none
  transcript : String
  metadata : Metadata := {}

/-- Python f-string rendering of a possibly missing string. -/
def pyStrOpt : Option String → String
  | some s => s
  | none => "None"

def joinSpace : List String → String
  | [] => ""
  | [x] => x
  | x :: xs => x ++ " " ++ joinSpace xs

def joinCommaSpace : List String → String
  | [] => ""
  | [x] => x
  | x :: xs => x ++ ", " ++ joinCommaSpace xs

/-- The transcript_for_processing computation of
build_action_plan_from_transcript (clarification answers merged in). -/
def transcriptForProcessing (msg : TranscriptMessage) : String :=
  let additional := joinSpace
    ((msg.metadata.clarification_history.filter
        (fun e => match e.answer with | some a => !a.isEmpty | none => false)).map
      (fun e => pyStrOpt e.question ++ ": " ++ pyStrOpt e.answer))
  let parts : List (Option String) :=
    [some msg.transcript, msg.metadata.clarification_response, some additional]
  let kept := (parts.filterMap id).filterMap
    (fun p => if !p.isEmpty && !(stripWs p).isEmpty then some (stripWs p) else none)
  let tfp := joinSpace kept
  if tfp.isEmpty then msg.transcript else tfp

/-- flight_site_context: a flight-site hint in the page host or URL. -/
def flightSiteContextOf (md : Metadata) : Bool :=
  ["skyscanner", "kayak", "expedia"].any (fun hint =>
    containsStr (md.page_host.getD "") hint || containsStr (md.page_url.getD "") hint)

/-- The anchored leading-command-verb pattern stripped by
infer_query_text, with IGNORECASE. -/
def leadVerbRx : Rx :=
  .seq [.opt (.cls1 isWs false),
        .opt (.seq [.lit "please", .cls1 isWs false]),
        .alt [.lit "open", .lit "show me", .lit "show", .lit "play", .lit "watch",
              .lit "find", .seq [.lit "search", .opt (.lit " for")],
              .lit "look up", .lit "look for"],
        .cls1 isWs false]

/-- \b(latest|newest|recent)\b with IGNORECASE. -/
def latestWordRx : Rx := .seq [.bnd, .alt [.lit "latest", .lit "newest", .lit "recent"], .bnd]

/-- re.sub of latestWordRx with the empty replacement: each match is
dropped and scanning resumes after it (the boundary context carries the
last matched character). -/
def removeLatestAux : Nat → Option Char → Chars → Chars
  | 0, _, s => s
  | fuel + 1, prev, s =>
    match rxRun true rxFuel latestWordRx prev s with
    | o :: _ => removeLatestAux fuel o.prev o.rest
    | [] =>
      match s with
      | [] => []
      | c :: t => c :: removeLatestAux fuel (some c) t

/-- infer_query_text from the interpreter heuristics: the stored query if
truthy, else the raw transcript with a leading command verb and
latest/newest/recent words removed, stripped of space, dot and comma. -/
def inferQueryText (rawTranscript : String) (entities : Entities) : String :=
  if entTruthy entities "query" then jStr ((dictGet entities "query").getD (.str ""))
  else
    let cleaned :=
      match rxMatchStart true leadVerbRx rawTranscript.data with
      | some rest => String.mk rest
      | none => rawTranscript
    let cleaned := String.mk (removeLatestAux (cleaned.data.length + 1) none cleaned.data)
    stripSet [' ', '.', ','] cleaned

/-- The small clarifying helper inside build_action_plan_from_transcript. -/
def clarifying (trace_id : Option String) (question reason : String) : InterpResult :=
  .clarify { id := make_uuid, trace_id := trace_id, question := question,
             options := [{ label := question }], reason := some reason }

/-- The video_intent keyword test of the interpreter heuristics. -/
def videoIntent (transcript_lower : String) : Bool :=
  ["video", "videos", "watch", "play", "music", "song", "clip",
   "trailer", "episode"].any (containsStr transcript_lower)

/-- The flight_intent test (keywords or flight-site page context). -/
def flightIntent (transcript_lower : String) (flight_site_context : Bool) : Bool :=
  (["flight", "flights", "airfare", "plane ticket"].any
     (containsStr transcript_lower)) || flight_site_context

/-- The search_signal keyword test. -/
def searchSignal (transcript_lower : String) : Bool :=
  ["search", "find", "look up", "look for", "watch", "play",
   "show me"].any (containsStr transcript_lower)

/-- The hotel_intent keyword test. -/
def hotelIntent (transcript_lower : String) : Bool :=
  ["hotel", "stay", "booking", "bookings.com"].any (containsStr transcript_lower)

/-- The entity enrichment at the head of the heuristic fallback: record an
inferred query and default the site (with its URL) for video and flight
intents. Only the query, site and url keys are ever inserted. -/
def heuristicEnrichedEntities (rawTranscript : String) (transcript_lower : String)
    (entities : Entities) (flight_site_context : Bool) : Entities :=
  let query_text : Option String :=
    if videoIntent transcript_lower || searchSignal transcript_lower
        || entTruthy entities "query" then
      some (inferQueryText rawTranscript entities)
    else none
  let entities :=
    match query_text with
    | some q => if !q.isEmpty then dictInsert entities "query" (.str q) else entities
    | none => entities
  let entities :=
    if videoIntent transcript_lower && !entTruthy entities "site" then
      let e := dictInsert entities "site" (.str "youtube")
      match map_site_to_url "youtube" with
      | some url => dictInsert e "url" (.str url)
      | none => e
    else entities
  if flightIntent transcript_lower flight_site_context && !entTruthy entities "site" then
    let e := dictInsert entities "site" (.str "skyscanner")
    match map_site_to_url "skyscanner" with
    | some url => dictInsert e "url" (.str url)
    | none => e
  else entities

/-- The heuristic fallback of build_action_plan_from_transcript
(interpreter_agent.py, from the transcript_lower binding to the final
clarification), as a function of the raw message transcript, the
processing transcript lowercased, the extracted entity map, the
flight-site flag and the trace id. -/
def heuristicDecision (rawTranscript : String) (transcript_lower : String)
    (entities0 : Entities) (flight_site_context : Bool) (trace_id : Option String) :
    InterpResult :=
  let video_intent := videoIntent transcript_lower
  let flight_intent := flightIntent transcript_lower flight_site_context
  let search_signal := searchSignal transcript_lower
  let entities := heuristicEnrichedEntities rawTranscript transcript_lower
                    entities0 flight_site_context
  -- Scroll intent
  if containsStr transcript_lower "scroll" then
    .plan { id := make_uuid, trace_id := trace_id, action := "scroll",
            target := some (.str "page"),
            value := some ((dictGet entities "scroll_direction").getD (.str "down")),
            entities := some entities, confidence := 7/10 }
  -- Click nth item intent
  else if (containsStr transcript_lower "click" || containsStr transcript_lower "open")
      && (match dictGet entities "position" with
          | some v => !jIsNull v
          | none => false) then
    .plan { id := make_uuid, trace_id := trace_id, action := "click_result",
            target := some (.str "item"),
            value := some (.str (pyStr ((dictGet entities "position").getD .null))),
            entities := some entities, confidence := 3/4 }
  else
    -- Travel/hotel/flight intent
    let has_route := dictHasKey entities "origin" && dictHasKey entities "destination"
    let has_destination_only := dictHasKey entities "destination"
    let has_date := ["date", "date_start", "date_end"].any (dictHasKey entities)
    let hotel_intent := hotelIntent transcript_lower
    if flight_intent then
      let missing := (if !dictHasKey entities "origin" then ["origin city"] else []) ++
                     (if !dictHasKey entities "destination" then ["destination city"] else [])
      if !missing.isEmpty then
        .clarify { id := make_uuid, trace_id := trace_id,
                   question := "Please confirm " ++ joinCommaSpace missing,
                   options := missing.map (fun item => { label := item }),
                   reason := some "missing_entities" }
      else
        .plan { id := make_uuid, trace_id := trace_id, action := "search_flights",
                target := some (.str "flight_search_form"), entities := some entities,
                required_followup := if !has_date then ["date"] else [],
                confidence := if has_route then 17/20 else 3/4 }
    else if hotel_intent && has_destination_only then
      .plan { id := make_uuid, trace_id := trace_id, action := "search_hotels",
              target := some (.str "hotel_search_form"), entities := some entities,
              confidence := if has_date then 39/50 else 17/25 }
    else if has_destination_only && has_date then
      .plan { id := make_uuid, trace_id := trace_id, action := "search_hotels",
              target := some (.str "travel_search_form"), entities := some entities,
              confidence := 7/10 }
    -- Content search intent
    else if search_signal || entTruthy entities "query" || video_intent then
      let qOrT : Option JVal :=
        if entTruthy entities "query" then dictGet entities "query"
        else if !rawTranscript.isEmpty then some (.str rawTranscript) else none
      match qOrT with
      | none => clarifying trace_id "What should I search for?" "missing_query"
      | some q =>
        .plan { id := make_uuid, trace_id := trace_id, action := "search_content",
                target := some (if entTruthy entities "site" then
                                  (dictGet entities "site").getD (.str "")
                                else .str (if video_intent then "youtube" else "page")),
                value := some q, entities := some entities,
                confidence := if entTruthy entities "site" then 4/5 else 13/20 }
    -- Explicit navigation intent
    else if (containsStr transcript_lower "open" || containsStr transcript_lower "go to"
             || containsStr transcript_lower "navigate")
        && (entTruthy entities "site" || entTruthy entities "url") then
      .plan { id := make_uuid, trace_id := trace_id, action := "open_site",
              target := dictGet entities "site", value := dictGet entities "url",
              entities := some entities, confidence := 4/5 }
    -- Site mention without an explicit verb
    else if entTruthy entities "site" || entTruthy entities "url" then
      .plan { id := make_uuid, trace_id := trace_id, action := "open_site",
              target := dictGet entities "site", value := dictGet entities "url",
              entities := some entities, confidence := 31/50 }
    else clarifying trace_id "What should I do?" "ambiguous_intent"

/-- The heuristic path of build_action_plan_from_transcript: entity
extraction on the processing transcript, page-context enrichment, then
the decision chain. -/
def interpretHeuristic (nd : String → Option String) (msg : TranscriptMessage) :
    InterpResult :=
  let tfp := transcriptForProcessing msg
  let fsc := flightSiteContextOf msg.metadata
  let transcript_lower := lowerS tfp
  let entities := extract_entities_from_transcript nd tfp
  let entities :=
    match msg.metadata.page_url with
    | some pu =>
      if !pu.isEmpty && fsc && !dictHasKey entities "url" then
        dictInsert entities "url" (.str pu)
      else entities
    | none => entities
  let entities :=
    if fsc && !entTruthy entities "site"
        && (match msg.metadata.page_host with | some ph => !ph.isEmpty | none => false) then
      dictInsert entities "site" (.str (msg.metadata.page_host.getD ""))
    else entities
  heuristicDecision msg.transcript transcript_lower entities fsc msg.trace_id

/-- The LLM-plan entity augmentation of build_action_plan_from_transcript
(the actionplan_v1 branch): merge locally extracted entities that are
missing, optionally synthesize a URL and target for search_content, then
assign merged-or-None back to the entities field. -/
def augmentRemotePlan (nd : String → Option String) (msg : TranscriptMessage)
    (r : Dict JVal) : Except String InterpResult := do
  let plan ← validateActionPlan r
  let local_entities := extract_entities_from_transcript nd msg.transcript
  let merged := local_entities.foldl
    (fun m kv => if !dictHasKey m kv.1 && !jIsNull kv.2 then dictInsert m kv.1 kv.2 else m)
    (plan.entities.getD [])
  let (merged, target) :=
    if plan.action == "search_content" then
      let merged :=
        if entTruthy merged "site" && !dictHasKey merged "url" then
          match map_site_to_url (jStr ((dictGet merged "site").getD (.str ""))) with
          | some url => dictInsert merged "url" (.str url)
          | none => merged
        else merged
      let target :=
        if !optJTruthy plan.target && entTruthy merged "site" then dictGet merged "site"
        else plan.target
      (merged, target)
    else (merged, plan.target)
  pure (.plan { plan with target := target,
                          entities := if merged.isEmpty then none else some merged })

/-- build_action_plan_from_transcript from agents/interpreter_agent.py.

The remote parameter is what asi_client.interpret_transcript resolves to:
the first parseable JSON object of the LLM response, or none when the
client is unconfigured at the call, the response is empty or
unparseable, or the provider call fails. The Bool in the result records
whether the LLM boundary was consulted. A pydantic ValidationError from
constructing a model out of an LLM dict propagates to the caller, which
the Except.error case embeds. -/
def build_action_plan_from_transcript (nd : String → Option String)
    (msg : TranscriptMessage) (is_configured : Bool) (remote : Option (Dict JVal)) :
    Except String InterpResult × Bool :=
  if is_configured then
    match remote with
    | some r =>
      if !r.isEmpty then
        if (match dictGet r "schema_version" with
            | some v => jIsStr v "clarification_v1" | none => false) then
          ((validateClarificationRequest r).map .clarify, true)
        else if (match dictGet r "schema_version" with
                 | some v => jIsStr v "actionplan_v1" | none => false) then
          (augmentRemotePlan nd msg r, true)
        else (.ok (interpretHeuristic nd msg), true)
      else (.ok (interpretHeuristic nd msg), true)
    | none => (.ok (interpretHeuristic nd msg), true)
  else (.ok (interpretHeuristic nd msg), false)

/-- AXElement from agents/shared/schemas.py (an element of the Chrome
accessibility tree). -/
structure AXElement where
  ax_id : String
  backend_node_id : Int
  role : String
  name : String := ""
  description : String := ""
  value : String := ""
  focusable : Bool := false
  focused : Bool := false
  expanded : Option Bool := none
  disabled : Bool := false
  checked : Option Bool := none
  selected : Option Bool := none
  deriving DecidableEq

/-- AXTree from agents/shared/schemas.py (generated_at is a wall-clock
default and plays no role in matching). -/
structure AXTree where
  schema_version : String := "axtree_v1"
  id : Option String := none
  trace_id : Option String := none
  page_url : Option String := none
  elements : List AXElement
  deriving DecidableEq

/-- Intent from agents/shared/schemas.py. -/
structure Intent where
  action : String
  target : Option String := none
  value : Option String := none
  date : Option String := none
  date_end : Option String := none
  location : Option String := none
  origin : Option String := none
  position : Option Int := none
  latest : Bool := false
  deriving DecidableEq

def optStrTruthy : Option String → Bool
  | some s => !s.isEmpty
  | none => false

/-- Python or-chain over entity lookups: the first truthy value, none when
all are falsy (a final falsy non-None operand is falsy to every
downstream truthiness check, so collapsing it to none is faithful). -/
def orJ : List (Option JVal) → Option JVal
  | [] => none
  | x :: xs =>
    match x with
    | some v => if jTruthy v then some v else orJ xs
    | none => orJ xs

def positionMap : List (String × Int) :=
  [("first", 1), ("second", 2), ("third", 3), ("fourth", 4), ("fifth", 5)]

/-- The position normalization in build_intent_from_action_plan (ordinal
words map through position_map; stored positions are integral). -/
def positionOf (entities : Entities) : Option Int :=
  match dictGet entities "position" with
  | some (.str s) => (positionMap.find? (fun p => p.1 == lowerS s)).map (·.2)
  | some (.num q) => some (q.num / (q.den : ℤ))
  | _ => none

/-- build_intent_from_action_plan from agents/shared/ax_matcher.py. -/
def build_intent_from_action_plan (action_plan : ActionPlan) : Intent :=
  let entities := action_plan.entities.getD []
  { action := action_plan.action,
    target := action_plan.target.map pyStr,
    value := action_plan.value.map pyStr,
    date := (orJ [dictGet entities "date", dictGet entities "date_start",
                  dictGet entities "check_in"]).map pyStr,
    date_end := (orJ [dictGet entities "date_end", dictGet entities "date_return",
                      dictGet entities "check_out"]).map pyStr,
    location := (orJ [dictGet entities "destination", dictGet entities "location",
                      dictGet entities "city"]).map pyStr,
    origin := (orJ [dictGet entities "origin", dictGet entities "from"]).map pyStr,
    position := positionOf entities,
    latest := entTruthy entities "latest" }

namespace AxMatcher

/-- Ordinal suffix as computed in ax_matcher.date_keywords. -/
def ordinalSuffix (day : Nat) : String :=
  if (4 ≤ day && day ≤ 20) || (24 ≤ day && day ≤ 30) then "th"
  else if day % 10 ≤ 3 then stndrdIndex ((day : Int) % 10 - 1) else "th"

/-- date_keywords from agents/shared/ax_matcher.py (the variant with
weekday-prefixed forms), variants in source order, then the lowercased
set. -/
def date_keywords (date_iso : String) : List String :=
  match parseIsoDate date_iso with
  | none => []
  | some dt =>
    let day := dt.day
    let month := dt.month
    let year := dt.year
    let month_name := monthName month
    let month_abbr := monthAbbr month
    let short_year := year % 100
    let suffix := ordinalSuffix day
    let variants : List String :=
      [ natRepr day ++ " " ++ month_name ++ " " ++ natRepr year
      , natRepr day ++ " " ++ month_abbr ++ " " ++ natRepr year
      , month_name ++ " " ++ natRepr day ++ " " ++ natRepr year
      , month_abbr ++ " " ++ natRepr day ++ " " ++ natRepr year
      , month_name ++ " " ++ natRepr day ++ ", " ++ natRepr year ]
      ++ (weekdayNames.flatMap (fun weekday =>
           [ weekday ++ ", " ++ month_name ++ " " ++ natRepr day ++ ", " ++ natRepr year
           , weekday ++ ", " ++ month_abbr ++ " " ++ natRepr day ++ ", " ++ natRepr year ]))
      ++ [ month_name ++ " " ++ natRepr day
      , month_abbr ++ " " ++ natRepr day
      , natRepr day ++ " " ++ month_name
      , natRepr day ++ " " ++ month_abbr
      , natRepr day ++ "/" ++ natRepr month ++ "/" ++ natRepr year
      , natRepr month ++ "/" ++ natRepr day ++ "/" ++ natRepr year
      , natRepr month ++ "/" ++ natRepr day ++ "/" ++ natRepr short_year
      , natRepr day ++ "/" ++ natRepr month ++ "/" ++ natRepr short_year
      , isoFormat year month day
      , natRepr year ++ "-" ++ pad2 month ++ "-" ++ pad2 day
      , natRepr day
      , pad2 day
      , natRepr day ++ suffix
      , natRepr day ++ suffix ++ " " ++ month_name
      , natRepr day ++ suffix ++ " " ++ month_name ++ " " ++ natRepr year ]
    (variants.map lowerS).dedup

/-- date_matches_name from ax_matcher.py. -/
def date_matches_name (date_iso name : String) : Bool :=
  if name.isEmpty || date_iso.isEmpty then false
  else (date_keywords date_iso).any (fun kw => containsStr (lowerS name) kw)

/-- Python str.split() (whitespace runs, empties dropped). -/
def pySplitWsAux : Chars → Chars → List String
  | [], acc => if acc.isEmpty then [] else [String.mk acc.reverse]
  | c :: t, acc =>
    if isWs c then
      (if acc.isEmpty then pySplitWsAux t [] else String.mk acc.reverse :: pySplitWsAux t [])
    else pySplitWsAux t (c :: acc)

def pySplitWs (s : String) : List String := pySplitWsAux s.data []

/-- Python str.isdigit restricted to ASCII digits. -/
def pyIsDigit (s : String) : Bool := !s.isEmpty && s.data.all isDigitC

/-- score_element from agents/shared/ax_matcher.py. -/
def score_element (el : AXElement) (intent : Intent) : ℚ :=
  let name_lower := if !el.name.isEmpty then lowerS el.name else ""
  let desc_lower := if !el.description.isEmpty then lowerS el.description else ""
  let combined := name_lower ++ " " ++ desc_lower
  let score : ℚ := 0
  -- Date matching
  let score := score +
    (if optStrTruthy intent.date then
      (if date_matches_name (intent.date.getD "") el.name then 9/10
       else if date_matches_name (intent.date.getD "") el.description then 7/10 else 0)
     else 0)
  -- Location/destination matching
  let score := score +
    (if optStrTruthy intent.location then
      let loc_lower := lowerS (intent.location.getD "")
      (if containsStr name_lower loc_lower then 7/10
       else if containsStr desc_lower loc_lower then 1/2 else 0)
     else 0)
  -- Origin matching
  let score := score +
    (if optStrTruthy intent.origin then
      let origin_lower := lowerS (intent.origin.getD "")
      (if containsStr name_lower origin_lower then 3/5
       else if containsStr desc_lower origin_lower then 2/5 else 0)
     else 0)
  -- Target matching
  let score := score +
    (if optStrTruthy intent.target then
      let target_words := pySplitWs (lowerS (intent.target.getD ""))
      let nmatches : ℚ := ((target_words.filter (fun w => containsStr combined w)).length : ℚ)
      min (1/2) (nmatches * 3/20)
     else 0)
  -- Value matching
  let score := score +
    (if optStrTruthy intent.value && !el.value.isEmpty then
      (if containsStr (lowerS el.value) (lowerS (intent.value.getD "")) then 3/10 else 0)
     else 0)
  -- Role-based scoring
  let action_lower := if !intent.action.isEmpty then lowerS intent.action else ""
  let score := score +
    (if containsStr action_lower "input" || containsStr action_lower "search"
        || containsStr action_lower "type" then
      (if ["textbox", "combobox", "searchbox"].contains el.role then 3/10 else 0)
     else 0)
  let score := score +
    (if containsStr action_lower "click" then
      (if ["button", "link", "menuitem"].contains el.role then 1/5 else 0)
     else 0)
  let score := score +
    (if containsStr action_lower "date" || optStrTruthy intent.date then
      (if el.role == "gridcell" then 2/5
       else if el.role == "button" && !el.name.isEmpty && pyIsDigit el.name then 3/10
       else 0)
     else 0)
  -- Search-related element detection
  let score := score +
    (if ["search", "find", "go", "submit", "apply", "done", "confirm"].any
          (fun kw => containsStr name_lower kw) then
      (if containsStr action_lower "search" || containsStr action_lower "submit" then 2/5 else 0)
     else 0)
  -- Input field detection by name patterns
  let score := score +
    (if ["textbox", "combobox", "searchbox"].contains el.role then
      (if ["where", "destination", "origin", "from", "to", "check-in", "check-out",
           "date"].any (fun p => containsStr name_lower p) then 1/5 else 0)
     else 0)
  -- Penalize disabled elements
  let score := if el.disabled then score * (1/10) else score
  min 1 score

/-- First pair carrying the maximal score: the head of a stable sort by
descending score, which is how the Python candidate lists commit to a
winner. -/
def bestBy {α : Type} (l : List (α × ℚ)) : Option (α × ℚ) :=
  l.foldl (fun acc x =>
    match acc with
    | none => some x
    | some b => if x.2 > b.2 then some x else some b) none

/-- match_element_by_intent from agents/shared/ax_matcher.py. -/
def match_element_by_intent (ax_tree : AXTree) (intent : Intent) :
    Option (AXElement × ℚ) :=
  if ax_tree.elements.isEmpty then none
  else
    let candidates := ((ax_tree.elements.filter (fun el =>
        !(el.disabled && !(["read", "check"].contains intent.action)))).map
      (fun el => (el, score_element el intent))).filter (fun p => decide ((0 : ℚ) < p.2))
    bestBy candidates

/-- The date branch of pick_best_guess: a focused or selected non-disabled
gridcell, else the first one, when any is visible. -/
def bestGuessDate (ax_tree : AXTree) (intent : Intent) (action_lower : String) :
    Option AXElement :=
  if containsStr action_lower "date" || optStrTruthy intent.date then
    let gridcells := ax_tree.elements.filter (fun el => el.role == "gridcell" && !el.disabled)
    if !gridcells.isEmpty then
      match gridcells.find? (fun el => el.focused || el.selected.getD false) with
      | some el => some el
      | none => gridcells.head?
    else none
  else none

/-- The input branch of pick_best_guess: a focused non-disabled input
field, else the first one. -/
def bestGuessInput (ax_tree : AXTree) (action_lower : String) : Option AXElement :=
  if containsStr action_lower "input" || containsStr action_lower "search"
      || containsStr action_lower "type" then
    let inputs := ax_tree.elements.filter (fun el =>
      ["textbox", "combobox", "searchbox"].contains el.role && !el.disabled)
    if !inputs.isEmpty then
      match inputs.find? (fun el => el.focused) with
      | some el => some el
      | none => inputs.head?
    else none
  else none

/-- The click branch of pick_best_guess: the first non-disabled button or
link. -/
def bestGuessClick (ax_tree : AXTree) (action_lower : String) : Option AXElement :=
  if containsStr action_lower "click" then
    (ax_tree.elements.filter (fun el =>
      ["button", "link"].contains el.role && !el.disabled)).head?
  else none

/-- pick_best_guess from agents/shared/ax_matcher.py: the date, input and
click branches in order, then the first non-disabled element. -/
def pick_best_guess (ax_tree : AXTree) (intent : Intent) : Option AXElement :=
  let action_lower := if !intent.action.isEmpty then lowerS intent.action else ""
  match bestGuessDate ax_tree intent action_lower with
  | some el => some el
  | none =>
    match bestGuessInput ax_tree action_lower with
    | some el => some el
    | none =>
      match bestGuessClick ax_tree action_lower with
      | some el => some el
      | none => ax_tree.elements.find? (fun el => !el.disabled)

def input_roles : List String := ["textbox", "combobox", "searchbox", "spinbutton"]

/-- The description-pattern table of find_input_field. -/
def descriptionPatterns (field_type : String) : List String :=
  if field_type == "destination" then
    ["destination", "going to", "where to", "to where", "flying to",
     "enter your destination", "where are you going", "arrival"]
  else if field_type == "origin" then
    ["flying from", "from where", "leaving from", "departure city",
     "enter the city you\x27re flying from", "where from"]
  else if field_type == "date" then
    ["check-in", "check-out", "depart", "return", "when",
     "select date", "pick date", "travel date"]
  else if field_type == "search" then ["search", "find", "query", "look up"]
  else if field_type == "guests" then ["guest", "traveler", "adult", "child", "room", "passenger"]
  else [field_type]

/-- The name-pattern fallback table of find_input_field. -/
def namePatterns (field_type : String) : List String :=
  if field_type == "destination" then
    ["destination", "where", "to", "going to", "city", "hotel", "location"]
  else if field_type == "origin" then ["origin", "from", "leaving from", "departure"]
  else if field_type == "date" then ["date", "when", "check-in", "check-out", "depart", "return"]
  else if field_type == "search" then ["search", "find", "query"]
  else if field_type == "guests" then ["guest", "traveler", "adult", "child", "room"]
  else [field_type]

/-- The per-pattern fallback loop of find_input_field: for each pattern in
order, a name match adds 0.5 and stops, else a description match adds
0.4 and stops. -/
def namePatternScore : List String → String → String → ℚ
  | [], _, _ => 0
  | p :: ps, name_lower, desc_lower =>
    if containsStr name_lower p then 1/2
    else if containsStr desc_lower p then 2/5
    else namePatternScore ps name_lower desc_lower

/-- find_input_field from agents/shared/ax_matcher.py. -/
def find_input_field (ax_tree : AXTree) (field_type : String)
    (exclude_ax_ids : List String) : Option AXElement :=
  let desc_patterns := descriptionPatterns field_type
  let nm_patterns := namePatterns field_type
  let candidates := (ax_tree.elements.filter (fun el =>
      input_roles.contains el.role && !el.disabled
      && !exclude_ax_ids.contains el.ax_id)).filterMap
    (fun el =>
      let name_lower := if !el.name.isEmpty then lowerS el.name else ""
      let desc_lower := if !el.description.isEmpty then lowerS el.description else ""
      let score : ℚ := if desc_patterns.any (fun p => containsStr desc_lower p) then 1 else 0
      let score := if score == 0 then namePatternScore nm_patterns name_lower desc_lower
                   else score
      if decide ((0 : ℚ) < score) then some (el, score) else none)
  (bestBy candidates).map (·.1)

/-- The start and end pattern lists of find_date_button. -/
def dateButtonPatterns (date_type : String) : List String :=
  if date_type == "start" then
    ["depart", "departure", "check-in", "check in", "checkin",
     "start date", "from date", "outbound", "leave"]
  else
    ["return", "check-out", "check out", "checkout",
     "end date", "to date", "inbound", "back"]

def dateNegativePatterns : List String :=
  ["traveler", "guest", "adult", "child", "room", "passenger", "cabin", "class", "seat"]

def monthNamesLower : List String :=
  ["january", "february", "march", "april", "may", "june",
   "july", "august", "september", "october", "november", "december"]

/-- find_date_button from agents/shared/ax_matcher.py. -/
def find_date_button (ax_tree : AXTree) (date_type : String)
    (exclude_ax_ids : List String) : Option AXElement :=
  let patterns := dateButtonPatterns date_type
  let candidates := (ax_tree.elements.filter (fun el =>
      el.role == "button" && !el.disabled && !exclude_ax_ids.contains el.ax_id)).filterMap
    (fun el =>
      let name_lower := if !el.name.isEmpty then lowerS el.name else ""
      if dateNegativePatterns.any (fun neg => containsStr name_lower neg) then none
      else
        let score : ℚ := if patterns.any (fun p => containsStr name_lower p) then 1 else 0
        let score := score +
          (if monthNamesLower.any (fun m => containsStr name_lower m) then 7/10 else 0)
        if decide ((0 : ℚ) < score) then some (el, score) else none)
  (bestBy candidates).map (·.1)

/-- find_date_cell from agents/shared/ax_matcher.py: first a gridcell or
short-named button whose name carries a date keyword, else a button
whose name carries a longer (more than four characters) keyword. -/
def find_date_cell (ax_tree : AXTree) (target_date : String) : Option AXElement :=
  let keywords := date_keywords target_date
  match ax_tree.elements.find? (fun el =>
      (el.role == "gridcell"
        || (el.role == "button" && !el.name.isEmpty && el.name.length ≤ 2))
      && !el.disabled
      && keywords.any (fun kw =>
           containsStr (if !el.name.isEmpty then lowerS el.name else "") kw)) with
  | some el => some el
  | none =>
    ax_tree.elements.find? (fun el =>
      el.role == "button" && !el.disabled
      && keywords.any (fun kw =>
           kw.length > 4
           && containsStr (if !el.name.isEmpty then lowerS el.name else "") kw))

/-- The keyword loop of find_action_button: an exact name match adds 1.5
and stops, a prefix match adds 1.0 (short names) or 0.5 and stops, a
substring match adds 0.3 and keeps scanning. -/
def actionKwLoop : List String → String → ℚ → Bool → (ℚ × Bool)
  | [], _, score, has_match => (score, has_match)
  | kw :: kws, name_lower, score, has_match =>
    if name_lower == kw then (score + 3/2, true)
    else if strStartsWith name_lower (kw ++ " ") || strStartsWith name_lower kw then
      (if name_lower.length < 20 then (score + 1, true) else (score + 1/2, true))
    else if containsStr name_lower kw then actionKwLoop kws name_lower (score + 3/10) true
    else actionKwLoop kws name_lower score has_match

/-- find_action_button from agents/shared/ax_matcher.py. -/
def find_action_button (ax_tree : AXTree) (action_keywords : Option (List String)) :
    Option AXElement :=
  let default_keywords := ["search", "submit", "apply", "done", "confirm", "go", "find"]
  let keywords :=
    match action_keywords with
    | some ks => if !ks.isEmpty then ks else default_keywords
    | none => default_keywords
  let keywords_lower := keywords.map lowerS
  let candidates := (ax_tree.elements.filter (fun el =>
      ["button", "link"].contains el.role && !el.disabled)).filterMap
    (fun el =>
      let name_lower := if !el.name.isEmpty then stripWs (lowerS el.name) else ""
      if name_lower.isEmpty then none
      else
        let sm := actionKwLoop keywords_lower name_lower 0 false
        if !sm.2 then none
        else
          let score := sm.1 + (if el.role == "button" then 1/2 else 0)
          let score := if name_lower.length > 50 then score * (3/10)
                       else if name_lower.length > 30 then score * (3/5) else score
          let score := score + (if el.role == "button" then 1/5 else 0)
          some (el, score))
  (bestBy candidates).map (·.1)

end AxMatcher

/-- AXExecutionStep from agents/shared/schemas.py. -/
structure AXExecutionStep where
  step_id : String
  action_type : String
  backend_node_id : Int
  value : Option String := none
  timeout_ms : Int := 4000
  retries : Nat := 0
  confidence : ℚ := 1
  notes : Option String := none
  deriving DecidableEq

/-- AXExecutionPlan from agents/shared/schemas.py. -/
structure AXExecutionPlan where
  schema_version : String := "axexecutionplan_v1"
  id : String
  trace_id : Option String := none
  steps : List AXExecutionStep
  deriving DecidableEq

/-- Result of the accessibility-tree navigator. -/
inductive AXNavResult where
  | plan (p : AXExecutionPlan)
  | clarify (c : ClarificationRequest)

/-- The make_uuid()[:8] step-id suffix. -/
def uuid8 : String := String.mk (make_uuid.data.take 8)

/-- Python string slicing s[:n]. -/
def pySlice (s : String) (n : Nat) : String := String.mk (s.data.take n)

open AxMatcher in
/-- _build_search_form_steps from agents/navigator_agent.py: origin field,
destination field (excluding the origin element), start and end date
cell-or-button, then the search button. -/
def build_search_form_steps (ax_tree : AXTree) (intent : Intent) :
    List AXExecutionStep :=
  let steps : List AXExecutionStep := []
  let used_ax_ids : List String := []
  -- Step 1: Origin (if provided)
  let su :=
    if optStrTruthy intent.origin then
      match find_input_field ax_tree "origin" used_ax_ids with
      | some origin_field =>
        (steps ++ [{ step_id := "s_origin_" ++ uuid8,
                     action_type := if origin_field.role == "combobox" then "input_select"
                                    else "input",
                     backend_node_id := origin_field.backend_node_id,
                     value := intent.origin,
                     timeout_ms := 5000, confidence := 7/10,
                     notes := some ("Origin input+select: "
                       ++ (if !origin_field.name.isEmpty then pySlice origin_field.name 30
                           else "field")) }],
         used_ax_ids ++ [origin_field.ax_id])
      | none => (steps, used_ax_ids)
    else (steps, used_ax_ids)
  let steps := su.1
  let used_ax_ids := su.2
  -- Step 2: Destination, excluding the origin field
  let su :=
    if optStrTruthy intent.location then
      match find_input_field ax_tree "destination" used_ax_ids with
      | some dest_field =>
        (steps ++ [{ step_id := "s_destination_" ++ uuid8,
                     action_type := if dest_field.role == "combobox" then "input_select"
                                    else "input",
                     backend_node_id := dest_field.backend_node_id,
                     value := intent.location,
                     timeout_ms := 5000, confidence := 7/10,
                     notes := some ("Destination input+select: "
                       ++ (if !dest_field.name.isEmpty then pySlice dest_field.name 30
                           else "field")) }],
         used_ax_ids ++ [dest_field.ax_id])
      | none => (steps, used_ax_ids)
    else (steps, used_ax_ids)
  let steps := su.1
  let used_ax_ids := su.2
  -- Step 3: Start date: direct cell when the calendar is open, else the
  -- opening button
  let su :=
    if optStrTruthy intent.date then
      match find_date_cell ax_tree (intent.date.getD "") with
      | some date_cell =>
        (steps ++ [{ step_id := "s_date_start_" ++ uuid8, action_type := "click",
                     backend_node_id := date_cell.backend_node_id, confidence := 17/20,
                     notes := some ("Start date cell: "
                       ++ (if !date_cell.name.isEmpty then pySlice date_cell.name 30
                           else "cell")) }],
         used_ax_ids ++ [date_cell.ax_id])
      | none =>
        match find_date_button ax_tree "start" used_ax_ids with
        | some date_button =>
          (steps ++ [{ step_id := "s_date_start_btn_" ++ uuid8, action_type := "click",
                       backend_node_id := date_button.backend_node_id, confidence := 3/4,
                       notes := some ("Open date picker: "
                         ++ (if !date_button.name.isEmpty then pySlice date_button.name 30
                             else "button")) }],
           used_ax_ids ++ [date_button.ax_id])
        | none => (steps, used_ax_ids)
    else (steps, used_ax_ids)
  let steps := su.1
  let used_ax_ids := su.2
  -- Step 4: End date
  let su :=
    if optStrTruthy intent.date_end then
      match find_date_cell ax_tree (intent.date_end.getD "") with
      | some date_end_cell =>
        (steps ++ [{ step_id := "s_date_end_" ++ uuid8, action_type := "click",
                     backend_node_id := date_end_cell.backend_node_id, confidence := 17/20,
                     notes := some ("End date cell: "
                       ++ (if !date_end_cell.name.isEmpty then pySlice date_end_cell.name 30
                           else "cell")) }],
         used_ax_ids ++ [date_end_cell.ax_id])
      | none =>
        match find_date_button ax_tree "end" used_ax_ids with
        | some date_end_button =>
          (steps ++ [{ step_id := "s_date_end_btn_" ++ uuid8, action_type := "click",
                       backend_node_id := date_end_button.backend_node_id, confidence := 3/4,
                       notes := some ("Open return date picker: "
                         ++ (if !date_end_button.name.isEmpty
                             then pySlice date_end_button.name 30 else "button")) }],
           used_ax_ids ++ [date_end_button.ax_id])
        | none => (steps, used_ax_ids)
    else (steps, used_ax_ids)
  let steps := su.1
  -- Step 5: Search button (no exclusion applied in the source)
  match find_action_button ax_tree (some ["search", "find", "go"]) with
  | some search_btn =>
    steps ++ [{ step_id := "s_search_" ++ uuid8, action_type := "click",
                backend_node_id := search_btn.backend_node_id, confidence := 9/10,
                notes := some ("Search: "
                  ++ (if !search_btn.name.isEmpty then pySlice search_btn.name 30
                      else "button")) }]
  | none => steps

open AxMatcher in
/-- _build_search_content_steps from agents/navigator_agent.py. -/
def build_search_content_steps (ax_tree : AXTree) (intent : Intent) :
    List AXExecutionStep :=
  let steps : List AXExecutionStep := []
  let steps :=
    match find_input_field ax_tree "search" [] with
    | some search_input =>
      if optStrTruthy intent.value then
        steps ++ [{ step_id := "s_search_input_" ++ uuid8, action_type := "input",
                    backend_node_id := search_input.backend_node_id,
                    value := intent.value, confidence := 4/5,
                    notes := some ("Search input: "
                      ++ (if !search_input.name.isEmpty then pySlice search_input.name 30
                          else "field")) }]
      else steps
    | none => steps
  match find_action_button ax_tree (some ["search", "go", "find"]) with
  | some search_btn =>
    steps ++ [{ step_id := "s_search_btn_" ++ uuid8, action_type := "click",
                backend_node_id := search_btn.backend_node_id, confidence := 7/10,
                notes := some ("Search button: "
                  ++ (if !search_btn.name.isEmpty then pySlice search_btn.name 30
                      else "button")) }]
  | none => steps

open AxMatcher in
/-- build_ax_execution_plan from agents/navigator_agent.py (the LLM-free
accessibility-tree navigator). -/
def build_ax_execution_plan (action_plan : ActionPlan) (ax_tree : AXTree)
    (trace_id : Option String) : AXNavResult :=
  let action := lowerS action_plan.action
  let entities := action_plan.entities.getD []
  let intent := build_intent_from_action_plan action_plan
  if ["scroll", "scroll_page", "scroll_down", "scroll_up"].contains action then
    .plan { id := make_uuid, trace_id := trace_id,
            steps := [{ step_id := "s_scroll_" ++ uuid8, action_type := "scroll",
                        backend_node_id := 0,
                        value := some (if entTruthy entities "scroll_direction" then
                                         pyStr ((dictGet entities "scroll_direction").getD .null)
                                       else if optJTruthy action_plan.value then
                                         pyStr (action_plan.value.getD .null)
                                       else "down"),
                        confidence := 1 }] }
  else if ["history_back", "back", "go_back"].contains action then
    .plan { id := make_uuid, trace_id := trace_id,
            steps := [{ step_id := "s_back_" ++ uuid8, action_type := "history_back",
                        backend_node_id := 0, confidence := 1 }] }
  else if ["open_site", "navigate"].contains action then
    let url : Option String :=
      if entTruthy entities "url" then some (pyStr ((dictGet entities "url").getD .null))
      else action_plan.value.map pyStr
    .plan { id := make_uuid, trace_id := trace_id,
            steps := [{ step_id := "s_navigate_" ++ uuid8, action_type := "navigate",
                        backend_node_id := 0, value := url, confidence := 1 }] }
  else
    let steps : List AXExecutionStep :=
      if ["search_flights", "flight_search", "search_hotels", "search_stays",
          "search_travel"].contains action then
        build_search_form_steps ax_tree intent
      else if ["search_content", "search", "search_site"].contains action then
        build_search_content_steps ax_tree intent
      else if ["click_result", "click_item", "click"].contains action then
        match match_element_by_intent ax_tree intent with
        | some (el, score) =>
          [{ step_id := "s_click_" ++ uuid8, action_type := "click",
             backend_node_id := el.backend_node_id, confidence := score,
             notes := some ("Clicking " ++ el.role ++ ": "
               ++ (if !el.name.isEmpty then pySlice el.name 50 else "unnamed")) }]
        | none => []
      else if ["select_date", "pick_date"].contains action then
        if optStrTruthy intent.date then
          match find_date_cell ax_tree (intent.date.getD "") with
          | some date_el =>
            [{ step_id := "s_date_" ++ uuid8, action_type := "click",
               backend_node_id := date_el.backend_node_id, confidence := 4/5,
               notes := some ("Selecting date: " ++ date_el.name) }]
          | none => []
        else []
      else if ["input", "type", "fill"].contains action then
        match match_element_by_intent ax_tree intent with
        | some (el, score) =>
          [{ step_id := "s_input_" ++ uuid8, action_type := "input",
             backend_node_id := el.backend_node_id,
             value := some (intent.value.getD ""), confidence := score,
             notes := some ("Input into " ++ el.role ++ ": "
               ++ (if !el.name.isEmpty then pySlice el.name 50 else "unnamed")) }]
        | none => []
      else []
    let steps :=
      if steps.isEmpty then
        match match_element_by_intent ax_tree intent with
        | some (el, score) =>
          let action_type := if ["textbox", "combobox", "searchbox"].contains el.role
                             then "input" else "click"
          [{ step_id := "s_guess_" ++ uuid8, action_type := action_type,
             backend_node_id := el.backend_node_id,
             value := if action_type == "input" then intent.value else none,
             confidence := score * (4/5),
             notes := some ("Best guess: " ++ el.role ++ " - "
               ++ (if !el.name.isEmpty then pySlice el.name 50 else "unnamed")) }]
        | none =>
          match pick_best_guess ax_tree intent with
          | some el =>
            let action_type := if ["textbox", "combobox", "searchbox"].contains el.role
                               then "input" else "click"
            [{ step_id := "s_fallback_" ++ uuid8, action_type := action_type,
               backend_node_id := el.backend_node_id,
               value := if action_type == "input" then intent.value else none,
               confidence := 3/10,
               notes := some ("Fallback: " ++ el.role ++ " - "
                 ++ (if !el.name.isEmpty then pySlice el.name 50 else "unnamed")) }]
          | none => []
      else steps
    if steps.isEmpty then
      .clarify { id := make_uuid, trace_id := trace_id,
                 question := "I could not find elements to act on.",
                 options := [], reason := some "no_candidates" }
    else .plan { id := make_uuid, trace_id := trace_id, steps := steps }

/-- ExecutionStep from agents/shared/schemas.py (DOM variant). -/
structure ExecutionStep where
  step_id : String
  action_type : String
  element_id : Option String := none
  value : Option String := none
  timeout_ms : Int := 4000
  retries : Nat := 0
  confidence : ℚ := 1
  notes : Option String := none
  deriving DecidableEq

/-- ExecutionPlan from agents/shared/schemas.py. -/
structure ExecutionPlan where
  schema_version : String := "executionplan_v1"
  id : String
  trace_id : Option String := none
  steps : List ExecutionStep
  deriving DecidableEq

/-- The part of DOMMap the navigator dispatch itself reads; the element
list is consumed only inside the plan builders, which the dispatch
embedding abstracts over. -/
structure DOMMapM where
  page_url : Option String := none

/-- Result of the DOM navigator. -/
inductive NavResult where
  | plan (p : ExecutionPlan)
  | clarify (c : ClarificationRequest)

/-- The (plan, clarification) pair returned by each utils_plans builder;
at most one side is set in the source. -/
abbrev BuilderResult := Option ExecutionPlan × Option ClarificationRequest

/-- The family of utils_plans.py builders that build_execution_plan
dispatches to. Their element-selection internals are irrelevant to the
dispatch properties verified here, so the dispatch is embedded as a
function of the builder family and its theorems hold for every builder
behavior, in particular for the source builders. -/
structure DomBuilders where
  navigation : ActionPlan → BuilderResult
  history_back : ActionPlan → BuilderResult
  scroll : ActionPlan → BuilderResult
  search_content : ActionPlan → DOMMapM → BuilderResult
  click_result : ActionPlan → DOMMapM → BuilderResult
  destination_search : ActionPlan → DOMMapM → BuilderResult
  flight_date_update : ActionPlan → DOMMapM → BuilderResult
  flight_search : ActionPlan → DOMMapM → BuilderResult

/-- What asi_client.navigate resolves to, after the schema_version keyed
parse of the LLM response: a clarification, an execution plan, some
other JSON shape, or nothing (unconfigured, empty, unparseable or
failed). -/
inductive NavRemote where
  | clar (c : ClarificationRequest)
  | exec (p : ExecutionPlan)
  | other

/-- re.search for a six-digit path segment between slashes. -/
def slashSixAt (cs : Chars) : Bool :=
  match cs with
  | '/' :: c1 :: c2 :: c3 :: c4 :: c5 :: c6 :: '/' :: _ =>
    isDigitC c1 && isDigitC c2 && isDigitC c3 && isDigitC c4 && isDigitC c5 && isDigitC c6
  | _ => false

def hasSlashSixSlash : Chars → Bool
  | [] => false
  | c :: t => slashSixAt (c :: t) || hasSlashSixSlash t

/-- The return protocol shared by every builder call site in
build_execution_plan: a clarification wins, then a plan, else control
continues. -/
def builderOutcome : BuilderResult → Option NavResult
  | (_, some c) => some (.clarify c)
  | (some p, none) => some (.plan p)
  | (none, none) => none

/-- build_execution_plan from agents/navigator_agent.py (the DOM
navigator): URL date-update reroutes, the lightweight fast path, the LLM
attempt, then the action dispatch ending in the unsupported_action
clarification. -/
def build_execution_plan (B : DomBuilders) (action_plan : ActionPlan)
    (dom_map : DOMMapM) (trace_id : Option String) (llm_configured : Bool)
    (remote : Option NavRemote) : NavResult :=
  let action := lowerS action_plan.action
  let entities := action_plan.entities.getD []
  let page_url := dom_map.page_url.getD ""
  let has_dates := ["date", "date_start", "date_end"].any (entTruthy entities)
  let early1 : Option NavResult :=
    if ["update_flight_dates", "update_dates"].contains action then
      builderOutcome (B.flight_date_update action_plan dom_map)
    else none
  let is_flight_url := hasSlashSixSlash page_url.data || containsStr page_url "skyscanner"
  let early2 : Option NavResult :=
    if ["search_flights", "flight_search", "travel_flights"].contains action
        && has_dates && is_flight_url then
      let updated := { action_plan with
                       action := "update_flight_dates",
                       target := some (.str "flight_results_url"),
                       value := if !page_url.isEmpty then some (.str page_url)
                                else dictGet entities "url" }
      builderOutcome (B.flight_date_update updated dom_map)
    else none
  let early3 : Option NavResult :=
    if ["scroll", "scroll_page", "history_back", "back", "go_back"].contains action then
      if ["history_back", "back", "go_back"].contains action then
        builderOutcome (B.history_back action_plan)
      else builderOutcome (B.scroll action_plan)
    else none
  let llmResult : Option NavResult :=
    if llm_configured then
      match remote with
      | some (.clar c) => some (.clarify c)
      | some (.exec p) => some (.plan p)
      | some .other => none
      | none => none
    else none
  match early1 <|> early2 <|> early3 <|> llmResult with
  | some r => r
  | none =>
    let dispatched : BuilderResult :=
      if ["open_site", "navigate"].contains action then B.navigation action_plan
      else if ["history_back", "back", "go_back"].contains action then
        B.history_back action_plan
      else if ["scroll", "scroll_page"].contains action then B.scroll action_plan
      else if ["search_content", "search", "search_site"].contains action then
        B.search_content action_plan dom_map
      else if ["click_result", "click_item", "click"].contains action then
        B.click_result action_plan dom_map
      else if ["search_hotels", "search_stays", "search_travel"].contains action then
        B.destination_search action_plan dom_map
      else if ["update_flight_dates", "update_dates"].contains action then
        B.flight_date_update action_plan dom_map
      else if ["search_flights", "flight_search", "travel_flights"].contains action then
        B.flight_search action_plan dom_map
      else (none, some { id := make_uuid, trace_id := trace_id,
                         question := "What should I do on this page?", options := [],
                         reason := some "unsupported_action" })
    match dispatched with
    | (_, some c) => .clarify c
    | (some p, none) => .plan p
    | (none, none) =>
      .clarify { id := make_uuid, trace_id := trace_id,
                 question := "I could not find elements to act on.",
                 options := [], reason := some "no_candidates" }

/-- DOMElement from agents/shared/schemas.py, restricted to the fields the
flight-search builder and its selectors read (element_id, tag, type, the
eight scored text fields, role, score_hint). The scorer reads attribute
id/class values and dataset values as text (a non-string value would make
the source str-lower calls raise), so both maps carry strings here.
css_selector, xpath, bounding_rect, visible, enabled, is_sensitive and
has_value are never read by these functions and are omitted. -/
structure DOMElement where
  element_id : String
  tag : String
  type : Option String := none
  text : Option String := none
  aria_label : Option String := none
  placeholder : Option String := none
  name : Option String := none
  value : Option String := none
  role : Option String := none
  attributes : Dict String := []
  dataset : Dict String := []
  score_hint : ℚ := 0
  deriving DecidableEq

/-- The element list of DOMMap from agents/shared/schemas.py, as the DOM
selectors consume it. -/
structure DOMMap where
  elements : List DOMElement
  deriving DecidableEq

/-- keyword_score from agents/shared/utils_dom_scoring.py: a falsy text
scores 0; otherwise matches/2 capped at 1. -/
def keyword_score (text : String) (keywords : List String) : ℚ :=
  if text.isEmpty then 0
  else
    let lower := lowerS text
    let nmatches := (keywords.filter (fun kw => containsStr lower kw)).length
    if nmatches == 0 then 0 else min 1 ((nmatches : ℚ) / 2)

/-- The eight text fields both score_dom_element and combine_element_text
read, in source order (None renders as the empty string, which keyword
scoring treats like Python treats None). -/
def scoreFields (el : DOMElement) : List String :=
  [el.text.getD "", el.aria_label.getD "", el.placeholder.getD "", el.name.getD "",
   el.value.getD "", (dictGet el.attributes "id").getD "",
   (dictGet el.attributes "class").getD "",
   joinSpace (el.dataset.map (fun p => p.2))]

/-- score_dom_element from utils_dom_scoring.py: the best per-field keyword
score plus the score hint, capped at 1. -/
def score_dom_element (el : DOMElement) (keywords : List String) : ℚ :=
  let base := (scoreFields el).foldl (fun b f => max b (keyword_score f keywords)) 0
  min 1 (base + el.score_hint)

/-- combine_element_text from utils_dom_scoring.py: the truthy fields
joined with spaces, lowercased. -/
def combine_element_text (el : DOMElement) : String :=
  lowerS (joinSpace ((scoreFields el).filter (fun p => !p.isEmpty)))

/-- find_tagged_element_by_keywords from utils_dom_selectors.py: the first
element in DOM order, outside the exclusion set and matching the tag
filter, whose combined text contains a keyword. -/
def find_tagged_element_by_keywords (dom_map : DOMMap) (keywords : List String)
    (allowed_tags : List String) (exclude_ids : List String) : Option DOMElement :=
  if keywords.isEmpty then none
  else
    let lower_keywords := keywords.map lowerS
    dom_map.elements.find? (fun el =>
      !(exclude_ids.contains el.element_id)
      && (allowed_tags.isEmpty || allowed_tags.contains el.tag)
      && lower_keywords.any (fun kw => containsStr (combine_element_text el) kw))

/-- One traversal step of pick_best_element: skip excluded elements, apply
the tag-or-role gate, keep the strictly best score. -/
def pickStep (keywords allowed_tags allowed_roles exclude_ids : List String)
    (acc : Option DOMElement × ℚ) (el : DOMElement) : Option DOMElement × ℚ :=
  if exclude_ids.contains el.element_id then acc
  else
    let normalized_role := lowerS (el.role.getD "")
    let tag_ok := allowed_tags.isEmpty || allowed_tags.contains el.tag
    let role_ok := allowed_roles.isEmpty || allowed_roles.contains normalized_role
    let keep :=
      if !allowed_tags.isEmpty && !allowed_roles.isEmpty then tag_ok || role_ok
      else if !allowed_tags.isEmpty && !tag_ok then false
      else if !allowed_roles.isEmpty && !role_ok then false
      else true
    if keep then
      let score := score_dom_element el keywords
      if score > acc.2 then (some el, score) else acc
    else acc

/-- pick_best_element from utils_dom_selectors.py. An empty tag or role
list stands for the source's None/empty set (both falsy). -/
def pick_best_element (dom_map : DOMMap)
    (keywords allowed_tags allowed_roles exclude_ids : List String) :
    Option DOMElement × ℚ :=
  dom_map.elements.foldl (pickStep keywords allowed_tags allowed_roles exclude_ids)
    (none, 0)

/-- find_option_for_value from utils_dom_selectors.py (submit-typed
matches are discarded). -/
def find_option_for_value (dom_map : DOMMap) (value : Option String)
    (exclude_ids : List String) : Option DOMElement × ℚ :=
  match value with
  | none => (none, 0)
  | some v =>
    if v.isEmpty then (none, 0)
    else
      let r := pick_best_element dom_map [v] ["div", "span", "li", "button"]
                 ["option", "listitem", "menuitem"] exclude_ids
      match r.1 with
      | some el => if lowerS (el.type.getD "") == "submit" then (none, 0) else r
      | none => r

def flightOriginKeywords : List String :=
  ["origin", "from", "from city", "from where", "departure", "nereden", "kalkış", "gidiş"]

def flightDestKeywords : List String :=
  ["destination", "to", "arrival", "to city", "nereye", "varış", "varış noktası", "rota"]

def flightSearchKeywords : List String :=
  ["search", "find", "go", "ara", "bul", "devam"]

def flightInputTags : List String := ["input", "textarea", "select"]

def flightInputRoles : List String := ["combobox", "textbox"]

def flightButtonTags : List String := ["button", "a"]

def flightButtonRoles : List String := ["button"]

/-- Python `a or b or c` over two optional strings and a fallback. -/
def orDefault : Option String → String → String
  | some s, d => if s.isEmpty then d else s
  | none, d => d

/-- build_execution_plan_for_flight_search from agents/shared/utils_plans.py:
the three sequential picks registering used ids, the same-element drop,
the origin fallback with an empty exclusion set, the destination fallback
excluding only the (possibly rebound) origin element, the low-confidence
clarification, the autocomplete option lookups, and the step list. The
origin and destination entity values are read as strings (jStr), matching
the str-typed entities the source passes to find_option_for_value and
into ExecutionStep.value. -/
def build_execution_plan_for_flight_search (action_plan : ActionPlan)
    (dom_map : DOMMap) : BuilderResult :=
  let (origin_el, origin_score) :=
    pick_best_element dom_map flightOriginKeywords flightInputTags flightInputRoles []
  let used1 := match origin_el with | some o => [o.element_id] | none => []
  let (dest_el, dest_score) :=
    pick_best_element dom_map flightDestKeywords flightInputTags flightInputRoles used1
  let used2 := used1 ++ (match dest_el with | some d => [d.element_id] | none => [])
  let (search_el, search_score) :=
    pick_best_element dom_map flightSearchKeywords flightButtonTags flightButtonRoles used2
  let used3 := used2 ++ (match search_el with | some s => [s.element_id] | none => [])
  let (dest_el, dest_score) :=
    match origin_el, dest_el with
    | some o, some d =>
      if o.element_id == d.element_id then (none, 0) else (dest_el, dest_score)
    | _, _ => (dest_el, dest_score)
  let (origin_el, origin_score) :=
    if origin_el = none ∨ origin_score < 7/20 then
      match find_tagged_element_by_keywords dom_map flightOriginKeywords flightInputTags []
        with
      | some fb => (some fb, max origin_score (3/5))
      | none => (origin_el, origin_score)
    else (origin_el, origin_score)
  let (dest_el, dest_score) :=
    if dest_el = none ∨ dest_score < 7/20 then
      match find_tagged_element_by_keywords dom_map flightDestKeywords flightInputTags
          (match origin_el with | some o => [o.element_id] | none => []) with
      | some fb => (some fb, max dest_score (3/5))
      | none => (dest_el, dest_score)
    else (dest_el, dest_score)
  if origin_score < 7/20 ∨ dest_score < 7/20 ∨ origin_el = none ∨ dest_el = none then
    let options := [(origin_el, "origin"), (dest_el, "destination")].filterMap
      (fun p => p.1.map (fun el =>
        ({ label := "Use " ++ orDefault el.text (orDefault el.aria_label p.2),
           candidate_element_ids := [el.element_id] } : ClarificationOption)))
    (none, some { id := make_uuid, trace_id := action_plan.trace_id,
                  question := "Which fields should I use for origin and destination?",
                  options := options, reason := some "low_confidence_target" })
  else
    let originValue := (dictGet (action_plan.entities.getD []) "origin").map jStr
    let destValue := (dictGet (action_plan.entities.getD []) "destination").map jStr
    let (origin_option_el, origin_option_score) :=
      find_option_for_value dom_map originValue used3
    let used4 := used3 ++ (match origin_option_el with
                           | some e => [e.element_id] | none => [])
    let (dest_option_el, dest_option_score) :=
      find_option_for_value dom_map destValue used4
    let steps :=
      [{ step_id := "s_origin", action_type := "input",
         element_id := origin_el.map (fun o => o.element_id), value := originValue,
         timeout_ms := 5000, retries := 1, confidence := origin_score }]
      ++ (match origin_option_el with
          | some oe =>
            if origin_option_score ≥ 1/2 then
              [{ step_id := "s_origin_option", action_type := "click",
                 element_id := some oe.element_id, value := none, timeout_ms := 4000,
                 retries := 0, confidence := origin_option_score }]
            else []
          | none => [])
      ++ [{ step_id := "s_destination", action_type := "input",
            element_id := dest_el.map (fun d => d.element_id), value := destValue,
            timeout_ms := 5000, retries := 1, confidence := dest_score }]
      ++ (match dest_option_el with
          | some de =>
            if dest_option_score ≥ 1/2 then
              [{ step_id := "s_destination_option", action_type := "click",
                 element_id := some de.element_id, value := none, timeout_ms := 4000,
                 retries := 0, confidence := dest_option_score }]
            else []
          | none => [])
      ++ (match search_el with
          | some se =>
            [{ step_id := "s_search", action_type := "click",
               element_id := some se.element_id, value := none, timeout_ms := 4000,
               retries := 0, confidence := search_score }]
          | none => [])
    (some { id := make_uuid, trace_id := action_plan.trace_id, steps := steps }, none)

/- Generic lemmas about the embedding. -/

theorem bestBy_go_mem {α : Type} (l : List (α × ℚ)) :
    ∀ (acc : Option (α × ℚ)) (x : α × ℚ),
      l.foldl (fun acc x => match acc with
        | none => some x
        | some b => if x.2 > b.2 then some x else some b) acc = some x →
      acc = some x ∨ x ∈ l := by
  induction l with
  | nil => intro acc x h; exact .inl h
  | cons a t ih =>
    intro acc x h
    simp only [List.foldl_cons] at h
    rcases ih _ x h with h2 | h2
    · cases acc with
      | none =>
        simp only [Option.some.injEq] at h2
        exact .inr (h2 ▸ List.mem_cons_self a t)
      | some b =>
        by_cases hgt : a.2 > b.2
        · simp only [hgt, if_pos] at h2
          simp only [Option.some.injEq] at h2
          exact .inr (h2 ▸ List.mem_cons_self a t)
        · simp only [hgt, if_neg, not_false_iff] at h2
          exact .inl h2
    · exact .inr (List.mem_cons_of_mem _ h2)

theorem bestBy_mem {α : Type} {l : List (α × ℚ)} {x : α × ℚ}
    (h : AxMatcher.bestBy l = some x) : x ∈ l := by
  unfold AxMatcher.bestBy at h
  rcases bestBy_go_mem l none x h with h2 | h2
  · exact absurd h2 (by simp)
  · exact h2

theorem head?_mem {α : Type} {l : List α} {a : α} (h : l.head? = some a) : a ∈ l := by
  cases l with
  | nil => simp at h
  | cons b t => simp_all

theorem fst_of_iteSome {α β : Type} {c : Prop} [Decidable c] {a : α} {s : β}
    {pr : α × β} (h : (if c then some (a, s) else none) = some pr) : pr.1 = a := by
  split at h
  · cases h; rfl
  · exact absurd h (by simp)

/-- An element delivered by find_input_field is never one of the excluded
ones: the candidate pool filters them out before scoring. -/
theorem find_input_field_not_excluded (tree : AXTree) (ft : String)
    (excl : List String) (el : AXElement)
    (h : AxMatcher.find_input_field tree ft excl = some el) :
    excl.contains el.ax_id = false := by
  unfold AxMatcher.find_input_field at h
  rcases Option.map_eq_some'.mp h with ⟨pr, hb, hpr⟩
  have hmem := bestBy_mem hb
  rcases List.mem_filterMap.mp hmem with ⟨el2, hel2, hf⟩
  have h1 : pr.1 = el2 := fst_of_iteSome hf
  have hel : el2 = el := by rw [← hpr, h1]
  subst hel
  have := (List.mem_filter.mp hel2).2
  simp only [Bool.and_eq_true, Bool.not_eq_true'] at this
  exact this.2

theorem filter_not_disabled {l : List AXElement} {p : AXElement → Bool} {el : AXElement}
    (hm : el ∈ l.filter (fun e => p e && !e.disabled)) : el.disabled = false := by
  have := (List.mem_filter.mp hm).2
  simp only [Bool.and_eq_true, Bool.not_eq_true'] at this
  exact this.2

theorem bestGuessDate_not_disabled {tree : AXTree} {intent : Intent} {al : String}
    {el : AXElement} (h : AxMatcher.bestGuessDate tree intent al = some el) :
    el.disabled = false := by
  unfold AxMatcher.bestGuessDate at h
  dsimp only at h
  split at h
  · split at h
    · split at h
      next heq =>
        cases h
        exact filter_not_disabled (List.mem_of_find?_eq_some heq)
      next => exact filter_not_disabled (head?_mem h)
    · exact absurd h (by simp)
  · exact absurd h (by simp)

theorem bestGuessInput_not_disabled {tree : AXTree} {al : String}
    {el : AXElement} (h : AxMatcher.bestGuessInput tree al = some el) :
    el.disabled = false := by
  unfold AxMatcher.bestGuessInput at h
  dsimp only at h
  split at h
  · split at h
    · split at h
      next heq =>
        cases h
        exact filter_not_disabled (List.mem_of_find?_eq_some heq)
      next => exact filter_not_disabled (head?_mem h)
    · exact absurd h (by simp)
  · exact absurd h (by simp)

theorem bestGuessClick_not_disabled {tree : AXTree} {al : String}
    {el : AXElement} (h : AxMatcher.bestGuessClick tree al = some el) :
    el.disabled = false := by
  unfold AxMatcher.bestGuessClick at h
  split at h
  · exact filter_not_disabled (head?_mem h)
  · exact absurd h (by simp)

theorem pick_best_guess_not_disabled (tree : AXTree) (intent : Intent) (el : AXElement)
    (h : AxMatcher.pick_best_guess tree intent = some el) : el.disabled = false := by
  unfold AxMatcher.pick_best_guess at h
  dsimp only at h
  split at h
  next heq =>
    cases h
    exact bestGuessDate_not_disabled heq
  next =>
    split at h
    next heq =>
      cases h
      exact bestGuessInput_not_disabled heq
    next =>
      split at h
      next heq =>
        cases h
        exact bestGuessClick_not_disabled heq
      next =>
        have := List.find?_some h
        simpa using this

/-- C6: for every accessibility tree and every intent whose action is not
in the read/check set, neither match_element_by_intent nor the
pick_best_guess fallback returns an element whose disabled flag is true. -/
theorem C6_matching_never_selects_disabled :
    ∀ (tree : AXTree) (intent : Intent),
      (["read", "check"].contains intent.action) = false →
      (∀ el sc, AxMatcher.match_element_by_intent tree intent = some (el, sc) →
        el.disabled = false) ∧
      (∀ el, AxMatcher.pick_best_guess tree intent = some el → el.disabled = false) := by
  intro tree intent hact
  constructor
  · intro el sc h
    unfold AxMatcher.match_element_by_intent at h
    split at h
    · exact absurd h (by simp)
    · have hmem := bestBy_mem h
      have hmem2 := (List.mem_filter.mp hmem).1
      rcases List.mem_map.mp hmem2 with ⟨el2, hel2, heq⟩
      have hfst : el2 = el := congrArg Prod.fst heq
      subst hfst
      have hp := (List.mem_filter.mp hel2).2
      rw [hact] at hp
      simpa using hp
  · intro el h
    exact pick_best_guess_not_disabled tree intent el h

/-- A tree with one enabled search button, for exercising the matchers. -/
def witTreeC6 : AXTree :=
  { elements := [{ ax_id := "b1", backend_node_id := 7, role := "button", name := "search" }] }

def witIntentC6 : Intent := { action := "click", target := some "search button" }

def witElC6 : AXElement :=
  { ax_id := "b1", backend_node_id := 7, role := "button", name := "search" }

/-- Witness for C6: a clickable intent on a concrete tree, the matcher
returns the enabled button, and the theorem yields its enabled-ness. -/
theorem C6_matching_never_selects_disabled_witness :
    (["read", "check"].contains witIntentC6.action) = false ∧ witElC6.disabled = false :=
  ⟨by decide,
   (C6_matching_never_selects_disabled witTreeC6 witIntentC6 (by decide)).1
     witElC6 (7/20) (by with_unfolding_all rfl)⟩

/-- Whatever pick_best_element selects was never in its exclusion list:
the fold skips excluded elements before scoring. -/
theorem pickStep_foldl_not_excluded (kws tags roles excl : List String) :
    ∀ (l : List DOMElement) (acc : Option DOMElement × ℚ),
      (∀ x, acc.1 = some x → excl.contains x.element_id = false) →
      ∀ x, (l.foldl (pickStep kws tags roles excl) acc).1 = some x →
        excl.contains x.element_id = false := by
  intro l
  induction l with
  | nil => intro acc hacc x hx; exact hacc x hx
  | cons e t ih =>
    intro acc hacc x hx
    refine ih _ ?_ x hx
    intro y hy
    unfold pickStep at hy
    by_cases hexcl : excl.contains e.element_id = true
    · rw [if_pos hexcl] at hy
      exact hacc y hy
    · rw [if_neg hexcl] at hy
      have hef : excl.contains e.element_id = false := by
        cases hb : excl.contains e.element_id
        · rfl
        · exact absurd hb hexcl
      dsimp only at hy
      repeat' split at hy
      all_goals first
        | exact hacc y hy
        | (injection hy with hy2; subst hy2; exact hef)

theorem pick_best_element_not_excluded (dom_map : DOMMap)
    (kws tags roles excl : List String) (e : DOMElement) (s : ℚ)
    (h : pick_best_element dom_map kws tags roles excl = (some e, s)) :
    excl.contains e.element_id = false := by
  apply pickStep_foldl_not_excluded kws tags roles excl dom_map.elements (none, 0)
    (by intro x hx; simp at hx) e
  unfold pick_best_element at h
  rw [h]

set_option maxHeartbeats 2000000 in
/-- C3 (amended): in the accessibility-tree form-fill builder, when both
the origin and the destination fields resolve, the destination lookup
excludes the origin element, so the two field steps never bind the same
element: the selected elements differ in ax_id and the first two plan
steps are exactly the origin and destination inputs. In the DOM builder
build_execution_plan_for_flight_search, when the origin and destination
picks both resolve at or above the 0.35 confidence floor (so neither
fallback lookup runs), the destination pick excludes the origin element,
the picked elements differ, and the plan starts with the two input steps
on those distinct elements. -/
theorem C3_origin_destination_never_collide :
    (∀ (tree : AXTree) (intent : Intent) (o d : AXElement),
      optStrTruthy intent.origin = true →
      optStrTruthy intent.location = true →
      AxMatcher.find_input_field tree "origin" [] = some o →
      AxMatcher.find_input_field tree "destination" [o.ax_id] = some d →
      o.ax_id ≠ d.ax_id ∧
      (build_search_form_steps tree intent).take 2 =
        [{ step_id := "s_origin_" ++ uuid8,
           action_type := if o.role == "combobox" then "input_select" else "input",
           backend_node_id := o.backend_node_id, value := intent.origin,
           timeout_ms := 5000, confidence := 7/10,
           notes := some ("Origin input+select: "
             ++ (if !o.name.isEmpty then pySlice o.name 30 else "field")) },
         { step_id := "s_destination_" ++ uuid8,
           action_type := if d.role == "combobox" then "input_select" else "input",
           backend_node_id := d.backend_node_id, value := intent.location,
           timeout_ms := 5000, confidence := 7/10,
           notes := some ("Destination input+select: "
             ++ (if !d.name.isEmpty then pySlice d.name 30 else "field")) }]) ∧
    (∀ (ap : ActionPlan) (dom_map : DOMMap) (o d : DOMElement) (so sd : ℚ),
      pick_best_element dom_map flightOriginKeywords flightInputTags flightInputRoles []
        = (some o, so) →
      pick_best_element dom_map flightDestKeywords flightInputTags flightInputRoles
        [o.element_id] = (some d, sd) →
      7/20 ≤ so → 7/20 ≤ sd →
      dictGet (ap.entities.getD []) "origin" = none →
      dictGet (ap.entities.getD []) "destination" = none →
      o.element_id ≠ d.element_id ∧
      ∃ tail, build_execution_plan_for_flight_search ap dom_map =
        (some { id := make_uuid, trace_id := ap.trace_id,
                steps :=
                  { step_id := "s_origin", action_type := "input",
                    element_id := some o.element_id, value := none,
                    timeout_ms := 5000, retries := 1, confidence := so } ::
                  { step_id := "s_destination", action_type := "input",
                    element_id := some d.element_id, value := none,
                    timeout_ms := 5000, retries := 1, confidence := sd } :: tail },
         none)) := by
  constructor
  · intro tree intent o d ho hl hO hD
    constructor
    · have hc := find_input_field_not_excluded tree "destination" [o.ax_id] d hD
      intro heq
      rw [heq] at hc
      simp [List.contains_cons] at hc
    · unfold build_search_form_steps
      simp only [ho, hl, hO, hD, if_true, eq_self_iff_true, List.nil_append]
      repeat' split
      all_goals simp [List.take]
  · intro ap dom_map o d so sd hO hD hso hsd he1 he2
    have hne : o.element_id ≠ d.element_id := by
      have hc := pick_best_element_not_excluded dom_map _ _ _ _ d sd hD
      intro heq
      rw [← heq] at hc
      simp at hc
    refine ⟨hne, ?_⟩
    have hbeq : (o.element_id == d.element_id) = false := beq_eq_false_iff_ne.mpr hne
    have hnso : ¬ (so < 7/20) := not_lt.mpr hso
    have hnsd : ¬ (sd < 7/20) := not_lt.mpr hsd
    rcases hS : pick_best_element dom_map flightSearchKeywords flightButtonTags
        flightButtonRoles [o.element_id, d.element_id] with ⟨sel, ss⟩
    unfold build_execution_plan_for_flight_search
    rw [hO]
    dsimp only
    rw [hD]
    dsimp only
    simp only [hbeq, hnso, hnsd, he1, he2, hS, Bool.false_eq_true, if_false,
      Option.some.injEq, reduceCtorEq, false_or, or_false, if_neg, not_false_eq_true]
    exact ⟨_, rfl⟩

/-- Origin combobox of the witness tree for C3. -/
def witOC3 : AXElement :=
  { ax_id := "f1", backend_node_id := 11, role := "textbox", name := "From field",
    description := "Enter the city you\x27re flying from" }

/-- Destination box of the witness tree for C3. -/
def witDC3 : AXElement :=
  { ax_id := "f2", backend_node_id := 12, role := "textbox", name := "To field",
    description := "Enter your destination" }

def witTreeC3 : AXTree := { elements := [witOC3, witDC3] }

def witIntentC3 : Intent :=
  { action := "search_flights", origin := some "paris", location := some "rome" }

/-- Origin input of the DOM witness map for C3. -/
def witDomOC3 : DOMElement :=
  { element_id := "w1", tag := "input", text := some "origin city" }

/-- Destination input of the DOM witness map for C3. -/
def witDomDC3 : DOMElement :=
  { element_id := "w2", tag := "input", text := some "destination city" }

def witDomC3 : DOMMap := { elements := [witDomOC3, witDomDC3] }

def witDomPlanC3 : ActionPlan :=
  { id := "p3", action := "search_flights", entities := some [] }

set_option maxRecDepth 4000 in
/-- Witness for C3: on a two-field tree the accessibility lookups land on
different elements and the first two steps are the two field inputs, and
on a two-field DOM map the picks resolve above the confidence floor to
distinct elements heading the plan. -/
theorem C3_origin_destination_never_collide_witness :
    (witOC3.ax_id ≠ witDC3.ax_id ∧
     (build_search_form_steps witTreeC3 witIntentC3).take 2 =
       [{ step_id := "s_origin_" ++ uuid8, action_type := "input",
          backend_node_id := 11, value := some "paris",
          timeout_ms := 5000, confidence := 7/10,
          notes := some "Origin input+select: From field" },
        { step_id := "s_destination_" ++ uuid8, action_type := "input",
          backend_node_id := 12, value := some "rome",
          timeout_ms := 5000, confidence := 7/10,
          notes := some "Destination input+select: To field" }]) ∧
    (witDomOC3.element_id ≠ witDomDC3.element_id ∧
     ∃ tail, build_execution_plan_for_flight_search witDomPlanC3 witDomC3 =
       (some { id := make_uuid, trace_id := none,
               steps :=
                 { step_id := "s_origin", action_type := "input",
                   element_id := some witDomOC3.element_id, value := none,
                   timeout_ms := 5000, retries := 1, confidence := 1/2 } ::
                 { step_id := "s_destination", action_type := "input",
                   element_id := some witDomDC3.element_id, value := none,
                   timeout_ms := 5000, retries := 1, confidence := 1/2 } :: tail },
        none)) :=
  ⟨C3_origin_destination_never_collide.1 witTreeC3 witIntentC3 witOC3 witDC3
     (by decide) (by decide) (by with_unfolding_all rfl) (by with_unfolding_all rfl),
   C3_origin_destination_never_collide.2 witDomPlanC3 witDomC3 witDomOC3 witDomDC3
     (1/2) (1/2) (by with_unfolding_all rfl) (by with_unfolding_all rfl)
     (by norm_num) (by norm_num) rfl rfl⟩

/-- The tree of the C3 counterexample: one enabled button whose name both
matches a start-date pattern and prefixes an action keyword. -/
def cexTreeC3 : AXTree :=
  { elements := [{ ax_id := "e1", backend_node_id := 1, role := "button",
                   name := "find departure" }] }

/-- A flight search with a departure date and no origin or destination. -/
def cexPlanC3 : ActionPlan :=
  { id := "p1", action := "search_flights",
    entities := some [("date", .str "2026-01-21")] }

/-- The DOM map of the C3 counterexample: the first input is a weak origin
match but a strong destination match, the second a slightly better origin
match; negative score hints hold both origin picks under the 0.35 floor,
so the origin fallback runs with its empty exclusion set and rebinds
origin to the element already chosen for destination. -/
def cexDomC3 : DOMMap :=
  { elements :=
      [ { element_id := "e1", tag := "input", text := some "from",
          aria_label := some "to city arrival rota", score_hint := -(3/10) },
        { element_id := "e2", tag := "input", text := some "departure",
          score_hint := -(1/5) },
        { element_id := "e3", tag := "button", text := some "search" } ] }

def cexDomPlanC3 : ActionPlan :=
  { id := "p2", action := "search_flights", entities := some [] }

set_option maxRecDepth 4000 in
/-- Counterexample to C3 as frozen, in both builders. Accessibility tree:
the form-fill builder emits a date-picker step and a submit step that
bind the same physical element (backend node 1), because the
search-button lookup does not exclude already used elements. DOM: the
flight-search builder returns a plan whose s_origin and s_destination
input steps both target element e1, because the origin fallback lookup
runs with an empty exclusion set and rebinds origin to the element the
destination pick already holds. -/
theorem C3_counterexample_collisions_in_both_builders :
    build_ax_execution_plan cexPlanC3 cexTreeC3 (some "t1") =
      .plan { id := make_uuid, trace_id := some "t1",
              steps := [ { step_id := "s_date_start_btn_" ++ uuid8, action_type := "click",
                           backend_node_id := 1, confidence := 3/4,
                           notes := some "Open date picker: find departure" },
                         { step_id := "s_search_" ++ uuid8, action_type := "click",
                           backend_node_id := 1, confidence := 9/10,
                           notes := some "Search: find departure" } ] } ∧
    build_execution_plan_for_flight_search cexDomPlanC3 cexDomC3 =
      (some { id := make_uuid, trace_id := none,
              steps :=
                [ { step_id := "s_origin", action_type := "input",
                    element_id := some "e1", value := none, timeout_ms := 5000,
                    retries := 1, confidence := 3/5 },
                  { step_id := "s_destination", action_type := "input",
                    element_id := some "e1", value := none, timeout_ms := 5000,
                    retries := 1, confidence := 7/10 },
                  { step_id := "s_search", action_type := "click",
                    element_id := some "e3", value := none, timeout_ms := 4000,
                    retries := 0, confidence := 1/2 } ] },
       none) := by
  constructor
  · with_unfolding_all rfl
  · with_unfolding_all rfl

/-- The union of the action aliases the DOM navigator dispatch recognizes. -/
def recognizedDomActions : List String :=
  ["open_site", "navigate", "history_back", "back", "go_back", "scroll", "scroll_page",
   "search_content", "search", "search_site", "click_result", "click_item", "click",
   "search_hotels", "search_stays", "search_travel", "update_flight_dates", "update_dates",
   "search_flights", "flight_search", "travel_flights"]

/-- C9 (amended): in the DOM-based navigator, an ActionPlan whose
normalized action is not one of the recognized action aliases reaches
the final dispatch branch and yields a ClarificationRequest with reason
unsupported_action, for every builder behavior, whenever the LLM
boundary produced no plan or clarification; the accessibility-tree
navigator has no such branch (see the counterexample). -/
theorem C9_unsupported_action_clarification :
    ∀ (B : DomBuilders) (plan : ActionPlan) (dm : DOMMapM) (tid : Option String)
      (cfg : Bool) (remote : Option NavRemote),
      recognizedDomActions.contains (lowerS plan.action) = false →
      (remote = none ∨ remote = some .other) →
      build_execution_plan B plan dm tid cfg remote =
        .clarify { id := make_uuid, trace_id := tid,
                   question := "What should I do on this page?", options := [],
                   reason := some "unsupported_action" } := by
  intro B plan dm tid cfg remote hact hrem
  simp only [recognizedDomActions] at hact
  simp at hact
  unfold build_execution_plan
  have c1 : (["update_flight_dates", "update_dates"].contains (lowerS plan.action)) = false := by
    simp; tauto
  have c2 : (["search_flights", "flight_search", "travel_flights"].contains
      (lowerS plan.action)) = false := by simp; tauto
  have c3 : (["scroll", "scroll_page", "history_back", "back", "go_back"].contains
      (lowerS plan.action)) = false := by simp; tauto
  have c4 : (["open_site", "navigate"].contains (lowerS plan.action)) = false := by
    simp; tauto
  have c5 : (["history_back", "back", "go_back"].contains (lowerS plan.action)) = false := by
    simp; tauto
  have c6 : (["scroll", "scroll_page"].contains (lowerS plan.action)) = false := by
    simp; tauto
  have c7 : (["search_content", "search", "search_site"].contains (lowerS plan.action)) = false := by
    simp; tauto
  have c8 : (["click_result", "click_item", "click"].contains (lowerS plan.action)) = false := by
    simp; tauto
  have c9 : (["search_hotels", "search_stays", "search_travel"].contains
      (lowerS plan.action)) = false := by simp; tauto
  simp only [c1, c2, c3, c4, c5, c6, c7, c8, c9, Bool.false_and, if_false,
    Bool.false_eq_true, and_false, false_and]
  rcases hrem with h | h <;> subst h <;> cases cfg <;> simp

/-- A builder family that always reports no plan and no clarification,
used to witness dispatch-level facts. -/
def trivialBuilders : DomBuilders :=
  { navigation := fun _ => (none, none)
  , history_back := fun _ => (none, none)
  , scroll := fun _ => (none, none)
  , search_content := fun _ _ => (none, none)
  , click_result := fun _ _ => (none, none)
  , destination_search := fun _ _ => (none, none)
  , flight_date_update := fun _ _ => (none, none)
  , flight_search := fun _ _ => (none, none) }

def cexPlanC9 : ActionPlan := { id := "p2", action := "dance" }

/-- Witness for C9: a concrete unrecognized action yields the
unsupported_action clarification in the DOM navigator. -/
theorem C9_unsupported_action_clarification_witness :
    recognizedDomActions.contains (lowerS cexPlanC9.action) = false ∧
    build_execution_plan trivialBuilders cexPlanC9 {} (some "t2") false none =
      .clarify { id := make_uuid, trace_id := some "t2",
                 question := "What should I do on this page?", options := [],
                 reason := some "unsupported_action" } :=
  ⟨by decide,
   C9_unsupported_action_clarification trivialBuilders cexPlanC9 {} (some "t2") false none
     (by decide) (Or.inl rfl)⟩

def cexTreeC9 : AXTree := { elements := [] }

/-- Counterexample to C9 as frozen: the accessibility-tree navigator has
no unsupported_action branch; an unrecognized action falls through to
best-guess matching and, with no matching element, surfaces as a
no_candidates clarification instead. -/
theorem C9_counterexample_ax_variant_no_unsupported_action :
    build_ax_execution_plan cexPlanC9 cexTreeC9 (some "t2") =
      .clarify { id := make_uuid, trace_id := some "t2",
                 question := "I could not find elements to act on.",
                 options := [], reason := some "no_candidates" } ∧
    some "no_candidates" ≠ some "unsupported_action" :=
  ⟨by with_unfolding_all rfl, by decide⟩

/- Lemmas about dictionary insertion for the interpreter facts. -/

theorem dictHasKey_insert_ne {V : Type} (d : Dict V) (k k' : String) (v : V)
    (h : k' ≠ k) : dictHasKey (dictInsert d k v) k' = dictHasKey d k' := by
  have hbe : (k == k') = false := beq_eq_false_iff_ne.mpr (Ne.symm h)
  induction d with
  | nil => simp [dictInsert, dictHasKey, List.find?, hbe]
  | cons hd tl ih =>
    by_cases hk : hd.1 = k
    · simp only [dictInsert, hk, beq_self_eq_true, if_true]
      simp only [dictHasKey, List.find?, hk, hbe]
    · have hbk : (hd.1 == k) = false := beq_eq_false_iff_ne.mpr hk
      simp only [dictInsert, hbk, Bool.false_eq_true, if_false]
      by_cases hk2 : hd.1 = k'
      · simp [dictHasKey, List.find?, hk2]
      · have hbk2 : (hd.1 == k') = false := beq_eq_false_iff_ne.mpr hk2
        simp only [dictHasKey, List.find?, hbk2] at ih ⊢
        exact ih

/-- The heuristic entity enrichment inserts only the query, site and url
keys, so presence of any other key is unchanged. -/
theorem hasKey_enrich (raw lower : String) (e : Entities) (fsc : Bool) (k : String)
    (h1 : k ≠ "query") (h2 : k ≠ "site") (h3 : k ≠ "url") :
    dictHasKey (heuristicEnrichedEntities raw lower e fsc) k = dictHasKey e k := by
  unfold heuristicEnrichedEntities
  dsimp only
  repeat' split
  all_goals simp [dictHasKey_insert_ne _ _ _ _ h1, dictHasKey_insert_ne _ _ _ _ h2,
    dictHasKey_insert_ne _ _ _ _ h3]

set_option maxHeartbeats 1000000 in
/-- C1 (amended): in the heuristic interpreter path, when a transcript
without scroll, click or open wording carries a flight intent, a missing
origin or destination yields a missing_entities ClarificationRequest
whose options name exactly the missing ones among origin city and
destination city; when origin and destination are both present and only
the date is missing, the result is instead a search_flights ActionPlan
with required_followup date. -/
theorem C1_flight_missing_fields :
    ∀ (raw lower : String) (entities : Entities) (fsc : Bool) (tid : Option String),
      containsStr lower "scroll" = false →
      containsStr lower "click" = false →
      containsStr lower "open" = false →
      flightIntent lower fsc = true →
      ((dictHasKey entities "origin" = false ∨ dictHasKey entities "destination" = false) →
        heuristicDecision raw lower entities fsc tid =
          .clarify { id := make_uuid, trace_id := tid,
                     question := "Please confirm " ++ joinCommaSpace
                       ((if !dictHasKey entities "origin" then ["origin city"] else []) ++
                        (if !dictHasKey entities "destination" then ["destination city"] else [])),
                     options := ((if !dictHasKey entities "origin" then ["origin city"] else []) ++
                        (if !dictHasKey entities "destination" then ["destination city"] else [])).map
                       (fun item => { label := item }),
                     reason := some "missing_entities" }) ∧
      (dictHasKey entities "origin" = true →
       dictHasKey entities "destination" = true →
       dictHasKey entities "date" = false →
       dictHasKey entities "date_start" = false →
       dictHasKey entities "date_end" = false →
        heuristicDecision raw lower entities fsc tid =
          .plan { id := make_uuid, trace_id := tid, action := "search_flights",
                  target := some (.str "flight_search_form"),
                  entities := some (heuristicEnrichedEntities raw lower entities fsc),
                  required_followup := ["date"], confidence := 17/20 }) := by
  intro raw lower entities fsc tid hscroll hclick hopen hflight
  have ho := hasKey_enrich raw lower entities fsc "origin"
    (by decide) (by decide) (by decide)
  have hd := hasKey_enrich raw lower entities fsc "destination"
    (by decide) (by decide) (by decide)
  have hx1 := hasKey_enrich raw lower entities fsc "date"
    (by decide) (by decide) (by decide)
  have hx2 := hasKey_enrich raw lower entities fsc "date_start"
    (by decide) (by decide) (by decide)
  have hx3 := hasKey_enrich raw lower entities fsc "date_end"
    (by decide) (by decide) (by decide)
  constructor
  · intro hmiss
    unfold heuristicDecision
    dsimp only
    rcases hmiss with hm | hm <;>
      cases horig : dictHasKey entities "origin" <;>
      cases hdest : dictHasKey entities "destination" <;>
      simp_all [hscroll, hclick, hopen, hflight, ho, hd]
  · intro horig hdest hda hdb hdc
    unfold heuristicDecision
    dsimp only
    simp_all [hscroll, hclick, hopen, hflight, ho, hd, hx1, hx2, hx3]

/-- Witness for C1: a flight-intent transcript with no entities at all
produces the clarification naming both missing fields. -/
theorem C1_flight_missing_fields_witness :
    (containsStr "book flights" "scroll" = false ∧
     flightIntent "book flights" false = true) ∧
    heuristicDecision "book flights" "book flights" [] false (some "t") =
      .clarify { id := make_uuid, trace_id := some "t",
                 question := "Please confirm origin city, destination city",
                 options := [{ label := "origin city" }, { label := "destination city" }],
                 reason := some "missing_entities" } :=
  ⟨⟨by decide, by decide⟩, by
    have h := (C1_flight_missing_fields "book flights" "book flights" [] false (some "t")
      (by decide) (by decide) (by decide) (by decide)).1 (Or.inl (by decide))
    simpa using h⟩

/-- The dateutil oracle for transcripts whose candidate date phrases carry
no date tokens: fuzzy parsing raises and normalize_date returns None. -/
def ndNone : String → Option String := fun _ => none

def cexMsgC1 : TranscriptMessage :=
  { id := "m1", trace_id := some "t1", transcript := "flights to london from paris" }

/-- Counterexample to C1 as frozen: the transcript mentions flights with
an origin and destination but no date, so a field named by the claim is
missing, yet the heuristic path returns a search_flights ActionPlan with
required_followup date rather than a ClarificationRequest. -/
theorem C1_counterexample_missing_date_gives_plan :
    flightIntent (lowerS "flights to london from paris") false = true ∧
    dictHasKey (extract_entities_from_transcript ndNone "flights to london from paris")
      "origin" = true ∧
    dictHasKey (extract_entities_from_transcript ndNone "flights to london from paris")
      "destination" = true ∧
    dictHasKey (extract_entities_from_transcript ndNone "flights to london from paris")
      "date" = false ∧
    dictHasKey (extract_entities_from_transcript ndNone "flights to london from paris")
      "date_start" = false ∧
    dictHasKey (extract_entities_from_transcript ndNone "flights to london from paris")
      "date_end" = false ∧
    interpretHeuristic ndNone cexMsgC1 =
      .plan { id := make_uuid, trace_id := some "t1", action := "search_flights",
              target := some (.str "flight_search_form"),
              entities := some [("destination", .str "london from paris"),
                                ("origin", .str "paris"),
                                ("site", .str "skyscanner"),
                                ("url", .str "https://www.skyscanner.net")],
              required_followup := ["date"], confidence := 17/20 } :=
  ⟨rfl, rfl, rfl, rfl, rfl, rfl, rfl⟩

set_option maxHeartbeats 1000000 in
/-- C10 (amended): a transcript whose entity map carries a known site and
which triggers none of the earlier heuristic classifiers (scroll, click,
open, go to, navigate, video, flight, search, hotel, query, destination)
reaches the bare-site-mention branch: an open_site ActionPlan with
confidence 0.62, which lies in the claimed interval. -/
theorem C10_bare_site_mention_open_site :
    ∀ (raw lower : String) (entities : Entities) (tid : Option String),
      entTruthy entities "site" = true →
      containsStr lower "scroll" = false →
      containsStr lower "click" = false →
      containsStr lower "open" = false →
      containsStr lower "go to" = false →
      containsStr lower "navigate" = false →
      videoIntent lower = false →
      flightIntent lower false = false →
      searchSignal lower = false →
      hotelIntent lower = false →
      entTruthy entities "query" = false →
      dictHasKey entities "destination" = false →
      heuristicDecision raw lower entities false tid =
        .plan { id := make_uuid, trace_id := tid, action := "open_site",
                target := dictGet entities "site", value := dictGet entities "url",
                entities := some entities, confidence := 31/50 } ∧
      ((3/5 : ℚ) ≤ 31/50 ∧ (31/50 : ℚ) ≤ 13/20) := by
  intro raw lower entities tid hsite hscroll hclick hopen hgoto hnav hvideo hflight
    hsearch hhotel hquery hdest
  have henr : heuristicEnrichedEntities raw lower entities false = entities := by
    unfold heuristicEnrichedEntities
    simp [hvideo, hsearch, hquery, hflight]
  constructor
  · unfold heuristicDecision
    dsimp only
    rw [henr]
    simp [hscroll, hclick, hopen, hgoto, hnav, hvideo, hflight, hsearch, hhotel,
      hquery, hdest, hsite]
  · constructor <;> norm_num

/-- Witness for C10: the bare transcript netflix with its extracted site
entity takes the open_site branch at confidence 0.62. -/
theorem C10_bare_site_mention_open_site_witness :
    entTruthy [("site", JVal.str "netflix")] "site" = true ∧
    (heuristicDecision "netflix" "netflix" [("site", JVal.str "netflix")] false none =
      .plan { id := make_uuid, trace_id := none, action := "open_site",
              target := dictGet [("site", JVal.str "netflix")] "site",
              value := dictGet [("site", JVal.str "netflix")] "url",
              entities := some [("site", JVal.str "netflix")], confidence := 31/50 } ∧
     ((3/5 : ℚ) ≤ 31/50 ∧ (31/50 : ℚ) ≤ 13/20)) :=
  ⟨by decide,
   C10_bare_site_mention_open_site "netflix" "netflix" [("site", JVal.str "netflix")] none
     (by decide) (by decide) (by decide) (by decide) (by decide) (by decide)
     (by decide) (by decide) (by decide) (by decide) (by decide) (by decide)⟩

def cexMsgC10 : TranscriptMessage :=
  { id := "m3", trace_id := none, transcript := "youtube music" }

/-- Counterexample to C10 as frozen: the transcript youtube music names a
known site and carries no explicit action verb, yet the video-intent
keyword music routes it to the content-search branch first, yielding a
search_content plan at confidence 0.8, outside the claimed interval. -/
theorem C10_counterexample_video_keyword_overrides_open_site :
    knownSites.contains "youtube" = true ∧
    containsStr (lowerS "youtube music") "scroll" = false ∧
    containsStr (lowerS "youtube music") "click" = false ∧
    containsStr (lowerS "youtube music") "open" = false ∧
    containsStr (lowerS "youtube music") "go to" = false ∧
    containsStr (lowerS "youtube music") "navigate" = false ∧
    rxMatchStart true leadVerbRx "youtube music".data = none ∧
    interpretHeuristic ndNone cexMsgC10 =
      .plan { id := make_uuid, trace_id := none, action := "search_content",
              target := some (.str "youtube"),
              value := some (.str "youtube music"),
              entities := some [("site", .str "youtube"),
                                ("query", .str "youtube music")],
              confidence := 4/5 } ∧
    "search_content" ≠ "open_site" ∧ ¬ ((4/5 : ℚ) ≤ 13/20) :=
  ⟨rfl, rfl, rfl, rfl, rfl, rfl, rfl, rfl, by decide, by norm_num⟩

set_option maxHeartbeats 1000000 in
/-- Every plan produced by the heuristic decision chain carries a non-null
entities map. -/
theorem heuristicDecision_plan_entities_some (raw lower : String) (ents : Entities)
    (fsc : Bool) (tid : Option String) (p : ActionPlan)
    (h : heuristicDecision raw lower ents fsc tid = .plan p) : p.entities ≠ none := by
  unfold heuristicDecision clarifying at h
  dsimp only at h
  repeat' split at h
  all_goals simp_all
  all_goals (subst h; simp)

set_option maxHeartbeats 1000000 in
/-- C5 (amended): ActionPlan construction defaults an absent or null
entities value to the empty map, and the heuristic path always attaches a
non-null entities map to its plans; the LLM-plan entity augmentation,
however, writes merged-or-None back, so after that stage entities is
null exactly when the merged map is empty and is in particular never the
empty map. -/
theorem C5_entities_null_boundary :
    (∀ (o : Dict JVal) (p : ActionPlan), validateActionPlan o = .ok p →
        ∃ e, p.entities = some e) ∧
    (∀ (nd : String → Option String) (msg : TranscriptMessage) (p : ActionPlan),
        interpretHeuristic nd msg = .plan p → p.entities ≠ none) ∧
    (∀ (nd : String → Option String) (msg : TranscriptMessage) (r : Dict JVal)
        (p : ActionPlan), augmentRemotePlan nd msg r = .ok (.plan p) →
        p.entities ≠ some []) := by
  refine ⟨?_, ?_, ?_⟩
  · intro o p h
    unfold validateActionPlan at h
    simp only [bind, Except.bind, pure, Except.pure] at h
    repeat' split at h
    all_goals simp_all
    all_goals (subst h; simp)
  · intro nd msg p h
    unfold interpretHeuristic at h
    dsimp only at h
    exact heuristicDecision_plan_entities_some _ _ _ _ _ p h
  · intro nd msg r p h
    unfold augmentRemotePlan at h
    simp only [bind, Except.bind, pure, Except.pure] at h
    repeat' split at h
    all_goals (try simp_all)
    all_goals (subst h; simp_all)

/-- Witness for C5: a minimal valid LLM plan object with no entities key
validates to a plan whose entities field is the empty map, not null. -/
theorem C5_entities_null_boundary_witness :
    ∃ e, ({ id := "p1", action := "noop", entities := some [] } : ActionPlan).entities
      = some e :=
  C5_entities_null_boundary.1 [("id", JVal.str "p1"), ("action", JVal.str "noop")]
    { id := "p1", action := "noop", entities := some [] } rfl

def cexMsgC5 : TranscriptMessage :=
  { id := "m4", trace_id := none, transcript := "zzz" }

def cexRemoteC5 : Dict JVal :=
  [("schema_version", JVal.str "actionplan_v1"), ("id", JVal.str "p1"),
   ("action", JVal.str "noop")]

/-- Counterexample to C5 as frozen: a valid actionplan_v1 response with no
entities, interpreted against a transcript from which nothing is
extracted, flows through the augmentation step, which resets the (empty)
entities map to null before the plan reaches the caller. -/
theorem C5_counterexample_augmentation_resets_entities_to_null :
    (build_action_plan_from_transcript ndNone cexMsgC5 true (some cexRemoteC5)).1 =
      .ok (.plan { id := "p1", action := "noop", entities := none }) ∧
    (extract_entities_from_transcript ndNone "zzz").isEmpty = true :=
  ⟨rfl, rfl⟩

/-- C2 (amended): when the LLM boundary yields nothing (unconfigured
client, empty, unparseable or failed response) or its first JSON object
has no recognized schema_version, the interpreter degrades to the
heuristic result instead of erroring; a validation error from a
well-shaped clarification_v1 or actionplan_v1 object, by contrast, still
propagates. This theorem proves the degradation half. -/
theorem C2_llm_unavailable_degrades_to_heuristics :
    ∀ (nd : String → Option String) (msg : TranscriptMessage) (cfg : Bool),
      (build_action_plan_from_transcript nd msg cfg none).1 =
        .ok (interpretHeuristic nd msg) ∧
      ∀ (r : Dict JVal),
        (match dictGet r "schema_version" with
         | some v => jIsStr v "clarification_v1" | none => false) = false →
        (match dictGet r "schema_version" with
         | some v => jIsStr v "actionplan_v1" | none => false) = false →
        (build_action_plan_from_transcript nd msg cfg (some r)).1 =
          .ok (interpretHeuristic nd msg) := by
  intro nd msg cfg
  constructor
  · unfold build_action_plan_from_transcript
    cases cfg <;> rfl
  · intro r h1 h2
    unfold build_action_plan_from_transcript
    cases cfg
    · rfl
    · dsimp only
      split
      · simp [h1, h2]
      · rfl

def witMsgC2 : TranscriptMessage :=
  { id := "m5", trace_id := none, transcript := "hello" }

/-- Witness for C2: an LLM object with an unknown schema_version falls
through to the heuristic result. -/
theorem C2_llm_unavailable_degrades_to_heuristics_witness :
    (build_action_plan_from_transcript ndNone witMsgC2 true
        (some [("schema_version", JVal.str "weird_v9")])).1 =
      .ok (interpretHeuristic ndNone witMsgC2) :=
  (C2_llm_unavailable_degrades_to_heuristics ndNone witMsgC2 true).2
    [("schema_version", JVal.str "weird_v9")] rfl rfl

def cexMsgC2 : TranscriptMessage :=
  { id := "m6", trace_id := none, transcript := "hello" }

def cexRemoteC2 : Dict JVal :=
  [("schema_version", JVal.str "clarification_v1"), ("question", JVal.str "Which one?")]

/-- Counterexample to C2 as frozen: a clarification_v1 response that lacks
the required id field makes ClarificationRequest construction raise a
ValidationError, which build_action_plan_from_transcript propagates to
its caller instead of degrading to heuristics. -/
theorem C2_counterexample_validation_error_propagates :
    (build_action_plan_from_transcript ndNone cexMsgC2 true (some cexRemoteC2)).1 =
      .error "id: field required" := rfl

def msgScroll : TranscriptMessage :=
  { id := "m7", trace_id := none, transcript := "scroll down" }

/-- C7 (amended): for the transcript scroll down the interpreter returns
ActionPlan action scroll, value down, confidence 0.7 — from the heuristic
chain, for any date oracle; whether the LLM boundary is consulted first
tracks exactly whether a provider is configured, so a configured provider
is queried even for this transcript. -/
theorem C7_scroll_down_heuristic_plan :
    ∀ (nd : String → Option String) (cfg : Bool),
      build_action_plan_from_transcript nd msgScroll cfg none =
        (.ok (.plan { id := make_uuid, trace_id := none, action := "scroll",
                      target := some (.str "page"), value := some (.str "down"),
                      entities := some [("scroll_direction", .str "down")],
                      confidence := 7/10 }), cfg) := by
  intro nd cfg
  cases cfg <;> rfl

/-- Counterexample to C7 as frozen: with a configured provider the LLM
boundary is consulted for scroll down (no fast path skips it), and the
resulting confidence is 0.7, not the claimed 0.75. -/
theorem C7_counterexample_llm_called_and_confidence :
    (build_action_plan_from_transcript ndNone msgScroll true none).2 = true ∧
    (build_action_plan_from_transcript ndNone msgScroll true none).1 =
      .ok (.plan { id := make_uuid, trace_id := none, action := "scroll",
                   target := some (.str "page"), value := some (.str "down"),
                   entities := some [("scroll_direction", .str "down")],
                   confidence := 7/10 }) ∧
    (7/10 : ℚ) ≠ 3/4 :=
  ⟨rfl, rfl, by norm_num⟩

theorem isDigitC_digitChar : ∀ k, k < 10 → isDigitC (digitChar k) = true := by decide

theorem digitVal_digitChar : ∀ k, k < 10 → digitVal (digitChar k) = k := by decide

theorem lowerChar_digitChar : ∀ k, k < 10 → lowerChar (digitChar k) = digitChar k := by
  decide

theorem isDigitC_digitChar_mod (n : Nat) : isDigitC (digitChar (n % 10)) = true :=
  isDigitC_digitChar _ (Nat.mod_lt _ (by decide))

theorem digitVal_digitChar_mod (n : Nat) : digitVal (digitChar (n % 10)) = n % 10 :=
  digitVal_digitChar _ (Nat.mod_lt _ (by decide))

theorem lowerChar_digitChar_mod (n : Nat) :
    lowerChar (digitChar (n % 10)) = digitChar (n % 10) :=
  lowerChar_digitChar _ (Nat.mod_lt _ (by decide))

theorem daysInMonth_le_31 (y m : Nat) : daysInMonth y m ≤ 31 := by
  unfold daysInMonth
  repeat' split
  all_goals omega

/-- Round trip: formatting a valid calendar date and strictly parsing it
back recovers the components. -/
theorem parseIsoDate_isoFormat (y m d : Nat) (hy1 : 1 ≤ y) (hy2 : y ≤ 9999)
    (hm1 : 1 ≤ m) (hm2 : m ≤ 12) (hd1 : 1 ≤ d) (hd2 : d ≤ daysInMonth y m) :
    parseIsoDate (isoFormat y m d) = some ⟨y, m, d⟩ := by
  have hd99 : d ≤ 31 := hd2.trans (daysInMonth_le_31 y m)
  unfold parseIsoDate isoFormat
  dsimp only
  simp only [isDigitC_digitChar_mod, digitVal_digitChar_mod, beq_self_eq_true,
    Bool.and_true, Bool.true_and, if_true]
  have hy : 1000 * (y / 1000 % 10) + 100 * (y / 100 % 10) + 10 * (y / 10 % 10) + y % 10
      = y := by omega
  have hm : 10 * (m / 10 % 10) + m % 10 = m := by omega
  have hd : 10 * (d / 10 % 10) + d % 10 = d := by omega
  rw [hy, hm, hd]
  simp [hy1, hm1, hm2, hd1, hd2]

/-- ISO date strings (digits and hyphens) are fixed by lowercasing. -/
theorem lowerS_isoFormat (y m d : Nat) : lowerS (isoFormat y m d) = isoFormat y m d := by
  unfold lowerS isoFormat lowerChars
  simp [lowerChar_digitChar_mod, show lowerChar (Char.ofNat 45) = Char.ofNat 45 from rfl]

theorem lowerChars_natReprAux (fuel n : Nat) :
    lowerChars (natReprAux fuel n) = natReprAux fuel n := by
  induction fuel generalizing n with
  | zero => rfl
  | succ f ih =>
    unfold natReprAux
    split
    · rename_i hlt
      simp [lowerChars, lowerChar_digitChar _ hlt]
    · simp only [lowerChars, List.map_append]
      rw [show (List.map lowerChar (natReprAux f (n / 10)))
            = lowerChars (natReprAux f (n / 10)) from rfl, ih]
      simp [lowerChar_digitChar_mod]

theorem lowerS_natRepr (n : Nat) : lowerS (natRepr n) = natRepr n := by
  unfold lowerS natRepr
  rw [show lowerChars (natReprAux (n+1) n) = natReprAux (n+1) n from
        lowerChars_natReprAux _ _]

theorem lowerS_append (a b : String) : lowerS (a ++ b) = lowerS a ++ lowerS b := by
  cases a with
  | mk da =>
    cases b with
    | mk db =>
      show lowerS (String.mk (da ++ db)) = _
      simp [lowerS, lowerChars]
      rfl

theorem lowerS_slash : lowerS "/" = "/" := rfl

set_option maxHeartbeats 1000000 in
/-- C8: both date_keywords functions (utils_dates.py and ax_matcher.py)
are pure and, on every valid ISO-8601 calendar date string, produce a
duplicate-free keyword set containing the ISO string itself, the numeric
day/month/year variant, and the verbose lowercased month-name variant. -/
theorem C8_date_keywords_pure_and_complete :
    ∀ (y m d : Nat), 1 ≤ y → y ≤ 9999 → 1 ≤ m → m ≤ 12 → 1 ≤ d → d ≤ daysInMonth y m →
      (isoFormat y m d ∈ UtilsDates.date_keywords (isoFormat y m d) ∧
       (natRepr d ++ "/" ++ natRepr m ++ "/" ++ natRepr y)
         ∈ UtilsDates.date_keywords (isoFormat y m d) ∧
       lowerS (monthName m ++ " " ++ natRepr d ++ " " ++ natRepr y)
         ∈ UtilsDates.date_keywords (isoFormat y m d) ∧
       (UtilsDates.date_keywords (isoFormat y m d)).Nodup) ∧
      (isoFormat y m d ∈ AxMatcher.date_keywords (isoFormat y m d) ∧
       (natRepr d ++ "/" ++ natRepr m ++ "/" ++ natRepr y)
         ∈ AxMatcher.date_keywords (isoFormat y m d) ∧
       lowerS (monthName m ++ " " ++ natRepr d ++ " " ++ natRepr y)
         ∈ AxMatcher.date_keywords (isoFormat y m d) ∧
       (AxMatcher.date_keywords (isoFormat y m d)).Nodup) := by
  intro y m d hy1 hy2 hm1 hm2 hd1 hd2
  have hp := parseIsoDate_isoFormat y m d hy1 hy2 hm1 hm2 hd1 hd2
  have hnum : lowerS (natRepr d ++ "/" ++ natRepr m ++ "/" ++ natRepr y)
      = natRepr d ++ "/" ++ natRepr m ++ "/" ++ natRepr y := by
    simp [lowerS_append, lowerS_natRepr, lowerS_slash]
  constructor
  · unfold UtilsDates.date_keywords
    rw [hp]
    dsimp only
    refine ⟨?_, ?_, ?_, List.nodup_dedup _⟩
    · rw [List.mem_dedup]
      exact List.mem_map.mpr ⟨isoFormat y m d, by simp, lowerS_isoFormat y m d⟩
    · rw [List.mem_dedup]
      exact List.mem_map.mpr
        ⟨natRepr d ++ "/" ++ natRepr m ++ "/" ++ natRepr y, by simp, hnum⟩
    · rw [List.mem_dedup]
      exact List.mem_map.mpr
        ⟨monthName m ++ " " ++ natRepr d ++ " " ++ natRepr y, by simp, rfl⟩
  · unfold AxMatcher.date_keywords
    rw [hp]
    dsimp only
    refine ⟨?_, ?_, ?_, List.nodup_dedup _⟩
    · rw [List.mem_dedup]
      exact List.mem_map.mpr
        ⟨isoFormat y m d, by simp [weekdayNames], lowerS_isoFormat y m d⟩
    · rw [List.mem_dedup]
      exact List.mem_map.mpr ⟨natRepr d ++ "/" ++ natRepr m ++ "/" ++ natRepr y,
        by simp [weekdayNames], hnum⟩
    · rw [List.mem_dedup]
      exact List.mem_map.mpr ⟨monthName m ++ " " ++ natRepr d ++ " " ++ natRepr y,
        by simp [weekdayNames], rfl⟩

/-- Witness for C8 at 2026-01-21. -/
theorem C8_date_keywords_pure_and_complete_witness :
    (isoFormat 2026 1 21 ∈ UtilsDates.date_keywords (isoFormat 2026 1 21) ∧
     (natRepr 21 ++ "/" ++ natRepr 1 ++ "/" ++ natRepr 2026)
       ∈ UtilsDates.date_keywords (isoFormat 2026 1 21) ∧
     lowerS (monthName 1 ++ " " ++ natRepr 21 ++ " " ++ natRepr 2026)
       ∈ UtilsDates.date_keywords (isoFormat 2026 1 21) ∧
     (UtilsDates.date_keywords (isoFormat 2026 1 21)).Nodup) ∧
    (isoFormat 2026 1 21 ∈ AxMatcher.date_keywords (isoFormat 2026 1 21) ∧
     (natRepr 21 ++ "/" ++ natRepr 1 ++ "/" ++ natRepr 2026)
       ∈ AxMatcher.date_keywords (isoFormat 2026 1 21) ∧
     lowerS (monthName 1 ++ " " ++ natRepr 21 ++ " " ++ natRepr 2026)
       ∈ AxMatcher.date_keywords (isoFormat 2026 1 21) ∧
     (AxMatcher.date_keywords (isoFormat 2026 1 21)).Nodup) :=
  C8_date_keywords_pure_and_complete 2026 1 21 (by decide) (by decide) (by decide)
    (by decide) (by decide) (by decide)

theorem splitOnCharAux_ne_nil (sep : Char) (cs : Chars) : splitOnCharAux sep cs ≠ [] := by
  cases cs with
  | nil => simp [splitOnCharAux]
  | cons c t =>
    simp only [splitOnCharAux]
    cases h : splitOnCharAux sep t with
    | nil => simp
    | cons g gs => dsimp only; split <;> simp

theorem splitOnCharAux_no_sep (sep : Char) (cs : Chars) :
    ∀ g ∈ splitOnCharAux sep cs, sep ∉ g := by
  induction cs with
  | nil => intro g hg; simp [splitOnCharAux] at hg; simp [hg]
  | cons c t ih =>
    intro g hg
    simp only [splitOnCharAux] at hg
    cases h : splitOnCharAux sep t with
    | nil => exact absurd h (splitOnCharAux_ne_nil sep t)
    | cons g0 gs =>
      rw [h] at hg
      dsimp only at hg
      by_cases hc : c = sep
      · rw [if_pos (by simp [hc])] at hg
        rcases List.mem_cons.mp hg with rfl | hg2
        · simp
        · exact ih g (h ▸ hg2)
      · rw [if_neg (by simp [hc])] at hg
        rcases List.mem_cons.mp hg with rfl | hg2
        · intro hm
          rcases List.mem_cons.mp hm with h2 | hm2
          · exact hc h2.symm
          · exact ih g0 (h ▸ List.mem_cons_self g0 gs) hm2
        · exact ih g (h ▸ List.mem_cons.mpr (Or.inr hg2))

theorem splitOnCharAux_of_no_sep (sep : Char) (cs : Chars) (h : sep ∉ cs) :
    splitOnCharAux sep cs = [cs] := by
  induction cs with
  | nil => rfl
  | cons c t ih =>
    have hc : ¬ c = sep := fun he => h (List.mem_cons.mpr (Or.inl he.symm))
    simp only [splitOnCharAux]
    rw [ih (fun hm => h (List.mem_cons.mpr (Or.inr hm)))]
    simp [hc]

theorem splitOnCharAux_append_sep (sep : Char) (xs ys : Chars) (h : sep ∉ xs) :
    splitOnCharAux sep (xs ++ sep :: ys) = xs :: splitOnCharAux sep ys := by
  induction xs with
  | nil =>
    simp only [List.nil_append, splitOnCharAux]
    cases hy : splitOnCharAux sep ys with
    | nil => exact absurd hy (splitOnCharAux_ne_nil sep ys)
    | cons g gs => simp
  | cons x t ih =>
    have hx : ¬ x = sep := fun he => h (List.mem_cons.mpr (Or.inl he.symm))
    simp only [List.cons_append, splitOnCharAux, List.append_eq]
    rw [ih (fun hm => h (List.mem_cons.mpr (Or.inr hm)))]
    simp [hx]

theorem splitSlash_ne_nil (s : String) : splitSlash s ≠ [] := by
  unfold splitSlash
  intro h
  exact splitOnCharAux_ne_nil ('/') s.data (List.map_eq_nil_iff.mp h)

theorem splitSlash_no_slash (s : String) :
    ∀ p ∈ splitSlash s, '/' ∉ p.data := by
  intro p hp
  unfold splitSlash at hp
  rcases List.mem_map.mp hp with ⟨g, hg, rfl⟩
  exact splitOnCharAux_no_sep ('/') s.data g hg

theorem data_append (a b : String) : (a ++ b).data = a.data ++ b.data := by
  cases a; cases b; rfl

theorem splitSlash_joinSlash (l : List String) (hne : l ≠ [])
    (hns : ∀ p ∈ l, '/' ∉ p.data) : splitSlash (joinSlash l) = l := by
  induction l with
  | nil => exact absurd rfl hne
  | cons p t ih =>
    cases t with
    | nil =>
      show splitSlash (joinSlash [p]) = [p]
      unfold joinSlash splitSlash
      rw [splitOnCharAux_of_no_sep _ _ (hns p (List.mem_cons_self p []))]
      cases p
      rfl
    | cons q r =>
      show splitSlash (joinSlash (p :: q :: r)) = p :: q :: r
      have hj : joinSlash (p :: q :: r) = p ++ "/" ++ joinSlash (q :: r) := rfl
      unfold splitSlash
      rw [hj, data_append, data_append]
      rw [show ("/" : String).data = ['/'] from rfl]
      rw [List.append_assoc, List.singleton_append]
      rw [splitOnCharAux_append_sep _ _ _ (hns p (List.mem_cons_self p _))]
      have ihr := ih (by simp) (fun x hx => hns x (List.mem_cons.mpr (Or.inr hx)))
      unfold splitSlash at ihr
      simp only [List.map]
      rw [ihr]

theorem mem_idxsWhere {p : α → Bool} {l : List α} {i : Nat} (h : i ∈ idxsWhere p l) :
    ∃ hlt : i < l.length, p (l.get ⟨i, hlt⟩) = true := by
  induction l generalizing i with
  | nil => simp [idxsWhere] at h
  | cons a t ih =>
    unfold idxsWhere at h
    dsimp only at h
    by_cases hp : p a = true
    · rw [if_pos hp] at h
      rcases List.mem_cons.mp h with rfl | h2
      · exact ⟨by simp, hp⟩
      · rcases List.mem_map.mp h2 with ⟨j, hj, rfl⟩
        rcases ih hj with ⟨hlt, hpj⟩
        exact ⟨by simpa using hlt, hpj⟩
    · rw [if_neg hp] at h
      rcases List.mem_map.mp h with ⟨j, hj, rfl⟩
      rcases ih hj with ⟨hlt, hpj⟩
      exact ⟨by simpa using hlt, hpj⟩

theorem idxsWhere_pairwise (p : α → Bool) (l : List α) :
    (idxsWhere p l).Pairwise (· < ·) := by
  induction l with
  | nil => simp [idxsWhere]
  | cons a t ih =>
    unfold idxsWhere
    dsimp only
    have hmap : ((idxsWhere p t).map (· + 1)).Pairwise (· < ·) := by
      rw [List.pairwise_map]
      exact ih.imp (by omega)
    split
    · exact List.pairwise_cons.mpr ⟨by intro x hx; rcases List.mem_map.mp hx with ⟨j, _, rfl⟩; omega, hmap⟩
    · exact hmap

theorem idxsWhere_set {p : α → Bool} (l : List α) (i : Nat) (a : α)
    (ha : p a = true) (hi : i ∈ idxsWhere p l) :
    idxsWhere p (l.set i a) = idxsWhere p l := by
  induction l generalizing i with
  | nil => simp [idxsWhere] at hi
  | cons x t ih =>
    cases i with
    | zero =>
      have hx : p x = true := by
        rcases mem_idxsWhere hi with ⟨hlt, hp0⟩
        simpa using hp0
      show idxsWhere p (a :: t) = idxsWhere p (x :: t)
      unfold idxsWhere
      dsimp only
      rw [if_pos ha, if_pos hx]
    | succ j =>
      have hj : j ∈ idxsWhere p t := by
        unfold idxsWhere at hi
        dsimp only at hi
        by_cases hx : p x = true
        · rw [if_pos hx] at hi
          rcases List.mem_cons.mp hi with h0 | h2
          · exact absurd h0 (by omega)
          · rcases List.mem_map.mp h2 with ⟨k, hk, he⟩
            have : k = j := by omega
            exact this ▸ hk
        · rw [if_neg hx] at hi
          rcases List.mem_map.mp hi with ⟨k, hk, he⟩
          have : k = j := by omega
          exact this ▸ hk
      show idxsWhere p (x :: t.set j a) = idxsWhere p (x :: t)
      unfold idxsWhere
      dsimp only
      rw [ih j hj]

theorem isSixDigits_data_ne (s : String) (h : isSixDigits s = true) :
    s.data.isEmpty = false := by
  simp only [isSixDigits, String.length, Bool.and_eq_true, beq_iff_eq] at h
  cases hd : s.data with
  | nil => rw [hd] at h; simp at h
  | cons a t => simp

theorem isSixDigits_no_slash (s : String) (h : isSixDigits s = true) : '/' ∉ s.data := by
  simp only [isSixDigits, Bool.and_eq_true] at h
  intro hm
  have hdig := List.all_eq_true.mp h.2 _ hm
  exact absurd hdig (by decide)

theorem rewrite_none_of_idx (u : UrlParts) (outb : String)
    (hoe : outb.data.isEmpty = false) (i0 : Nat) (rest : List Nat)
    (hidx : idxsWhere isSixDigits (splitSlash u.path) = i0 :: rest) :
    rewrite_flight_dates_in_url u outb none =
      some { u with path := joinSlash ((splitSlash u.path).set i0 outb) } := by
  unfold rewrite_flight_dates_in_url
  rw [if_neg (by simp [hoe])]
  dsimp only
  rw [hidx]
  cases rest <;> simp [inbTruthy]

theorem rewrite_some_of_idx2 (u : UrlParts) (outb back : String)
    (hoe : outb.data.isEmpty = false) (hbe : back.data.isEmpty = false)
    (i0 i1 : Nat) (rest : List Nat)
    (hidx : idxsWhere isSixDigits (splitSlash u.path) = i0 :: i1 :: rest) :
    rewrite_flight_dates_in_url u outb (some back) =
      some { u with path := joinSlash (((splitSlash u.path).set i0 outb).set i1 back) } := by
  unfold rewrite_flight_dates_in_url
  rw [if_neg (by simp [hoe])]
  dsimp only
  rw [hidx]
  simp [inbTruthy, hbe]

theorem set_no_slash (l : List String) (i : Nat) (a : String)
    (hl : ∀ p ∈ l, '/' ∉ p.data) (ha : '/' ∉ a.data) :
    ∀ p ∈ l.set i a, '/' ∉ p.data := by
  intro p hp
  rcases List.mem_or_eq_of_mem_set hp with hm | rfl
  · exact hl p hm
  · exact ha

theorem set_ne_nil (l : List String) (i : Nat) (a : String) (h : l ≠ []) :
    l.set i a ≠ [] := by
  cases l with
  | nil => exact absurd rfl h
  | cons x t => cases i <;> simp

set_option maxHeartbeats 1000000 in
/-- C4: on a URL whose path has six-digit segments, rewriting with
(out, None) replaces exactly the first such segment — same segment count,
every other segment untouched, all other URL components untouched — and
is idempotent; with two six-digit segments, rewriting with (out, back)
replaces both (out at the first index, back at the second) and is also
idempotent. -/
theorem C4_rewrite_flight_dates_roundtrip (u : UrlParts) (outb back : String)
    (hout : isSixDigits outb = true) (hback : isSixDigits back = true) :
    (∀ i0 rest, idxsWhere isSixDigits (splitSlash u.path) = i0 :: rest →
        rewrite_flight_dates_in_url u outb none =
          some { u with path := joinSlash ((splitSlash u.path).set i0 outb) } ∧
        (((splitSlash u.path).set i0 outb).length = (splitSlash u.path).length ∧
         ∀ j, j ≠ i0 → ((splitSlash u.path).set i0 outb)[j]? = (splitSlash u.path)[j]?) ∧
        rewrite_flight_dates_in_url
            { u with path := joinSlash ((splitSlash u.path).set i0 outb) } outb none =
          some { u with path := joinSlash ((splitSlash u.path).set i0 outb) }) ∧
    (∀ i0 i1 rest, idxsWhere isSixDigits (splitSlash u.path) = i0 :: i1 :: rest →
        rewrite_flight_dates_in_url u outb (some back) =
          some { u with
                 path := joinSlash (((splitSlash u.path).set i0 outb).set i1 back) } ∧
        ((((splitSlash u.path).set i0 outb).set i1 back)[i0]? = some outb ∧
         (((splitSlash u.path).set i0 outb).set i1 back)[i1]? = some back) ∧
        rewrite_flight_dates_in_url
            { u with path := joinSlash (((splitSlash u.path).set i0 outb).set i1 back) }
            outb (some back) =
          some { u with
                 path := joinSlash (((splitSlash u.path).set i0 outb).set i1 back) }) := by
  have hoe : outb.data.isEmpty = false := isSixDigits_data_ne outb hout
  have hbe : back.data.isEmpty = false := isSixDigits_data_ne back hback
  constructor
  · intro i0 rest hidx
    refine ⟨rewrite_none_of_idx u outb hoe i0 rest hidx, ⟨by simp, ?_⟩, ?_⟩
    · intro j hj
      simp [List.getElem?_set, Ne.symm hj]
    · have hP : splitSlash (joinSlash ((splitSlash u.path).set i0 outb))
          = (splitSlash u.path).set i0 outb :=
        splitSlash_joinSlash _ (set_ne_nil _ _ _ (splitSlash_ne_nil u.path))
          (set_no_slash _ _ _ (splitSlash_no_slash u.path) (isSixDigits_no_slash outb hout))
      have hidx2 : idxsWhere isSixDigits ((splitSlash u.path).set i0 outb) = i0 :: rest := by
        rw [idxsWhere_set (splitSlash u.path) i0 outb hout
              (by rw [hidx]; exact List.mem_cons_self _ _), hidx]
      have h2 := rewrite_none_of_idx
        { u with path := joinSlash ((splitSlash u.path).set i0 outb) } outb hoe i0 rest
        (by dsimp only; rw [hP, hidx2])
      rw [h2]
      dsimp only
      rw [hP, List.set_set]
  · intro i0 i1 rest hidx
    have hne01 : i0 ≠ i1 := by
      have hpw := idxsWhere_pairwise isSixDigits (splitSlash u.path)
      rw [hidx] at hpw
      have := (List.pairwise_cons.mp hpw).1 i1 (List.mem_cons_self _ _)
      omega
    have hi1lt : i1 < (splitSlash u.path).length := by
      rcases mem_idxsWhere (l := splitSlash u.path) (p := isSixDigits) (i := i1)
        (by rw [hidx]; exact List.mem_cons.mpr (Or.inr (List.mem_cons_self _ _))) with ⟨hlt, _⟩
      exact hlt
    have hi0lt : i0 < (splitSlash u.path).length := by
      rcases mem_idxsWhere (l := splitSlash u.path) (p := isSixDigits) (i := i0)
        (by rw [hidx]; exact List.mem_cons_self _ _) with ⟨hlt, _⟩
      exact hlt
    refine ⟨rewrite_some_of_idx2 u outb back hoe hbe i0 i1 rest hidx, ⟨?_, ?_⟩, ?_⟩
    · simp [List.getElem?_set, hne01, Ne.symm hne01, hi0lt, List.getElem_set]
    · simp [List.getElem?_set, hi1lt]
    · have hP : splitSlash (joinSlash (((splitSlash u.path).set i0 outb).set i1 back))
          = ((splitSlash u.path).set i0 outb).set i1 back :=
        splitSlash_joinSlash _
          (set_ne_nil _ _ _ (set_ne_nil _ _ _ (splitSlash_ne_nil u.path)))
          (set_no_slash _ _ _
            (set_no_slash _ _ _ (splitSlash_no_slash u.path) (isSixDigits_no_slash outb hout))
            (isSixDigits_no_slash back hback))
      have hidxA : idxsWhere isSixDigits ((splitSlash u.path).set i0 outb)
          = i0 :: i1 :: rest := by
        rw [idxsWhere_set (splitSlash u.path) i0 outb hout
              (by rw [hidx]; exact List.mem_cons_self _ _), hidx]
      have hidxB : idxsWhere isSixDigits (((splitSlash u.path).set i0 outb).set i1 back)
          = i0 :: i1 :: rest := by
        rw [idxsWhere_set ((splitSlash u.path).set i0 outb) i1 back hback
              (by rw [hidxA]; exact List.mem_cons.mpr (Or.inr (List.mem_cons_self _ _))),
            hidxA]
      have h2 := rewrite_some_of_idx2
        { u with path := joinSlash (((splitSlash u.path).set i0 outb).set i1 back) }
        outb back hoe hbe i0 i1 rest (by dsimp only; rw [hP, hidxB])
      rw [h2]
      dsimp only
      rw [hP]
      rw [List.set_comm outb back _ hne01, List.set_set,
          ← List.set_comm back outb _ (Ne.symm hne01), List.set_set]

def witUrlC4 : UrlParts :=
  { scheme := "https", netloc := "www.skyscanner.net",
    path := "/transport/flights/ist/lon/260121/", query := "", fragment := "" }

/-- Witness for C4: the Skyscanner scenario URL with outbound 260305 and
no inbound rewrites only its single date segment, idempotently. -/
theorem C4_rewrite_flight_dates_roundtrip_witness :
    rewrite_flight_dates_in_url witUrlC4 "260305" none =
      some { witUrlC4 with
             path := joinSlash ((splitSlash witUrlC4.path).set 5 "260305") } ∧
    rewrite_flight_dates_in_url
        { witUrlC4 with
          path := joinSlash ((splitSlash witUrlC4.path).set 5 "260305") }
        "260305" none =
      some { witUrlC4 with
             path := joinSlash ((splitSlash witUrlC4.path).set 5 "260305") } ∧
    joinSlash ((splitSlash witUrlC4.path).set 5 "260305") =
      "/transport/flights/ist/lon/260305/" :=
  ⟨((C4_rewrite_flight_dates_roundtrip witUrlC4 "260305" "260310" (by decide)
       (by decide)).1 5 [] (by decide)).1,
   ((C4_rewrite_flight_dates_roundtrip witUrlC4 "260305" "260310" (by decide)
       (by decide)).1 5 [] (by decide)).2.2,
   rfl⟩

end VocalWeb
